import Mathlib

/-!
Verification model of the FaceRecognitionGimmick repository.

The core of the repository is the FaceScanner React component
(src/components/FaceScanner.tsx): a finite state machine over a
ScannerStatus enumeration, driven by browser timers and camera callbacks.
We embed it as a discrete-event system: a Config records the component
state (useState hooks), the refs (streamRef, detectionActive, the
soundTimeouts registry, closure variables of the interval callbacks) and
the set of armed timers; an Event is a user click, a camera callback, or
the firing of an armed timer.  React effect semantics are modelled
faithfully: the main useEffect has dependency keys (status, countdown)
and the FSA-popup useEffect has dependency key showFsaPopup; whenever a
batch of state updates changes a key, the cleanup of the previous effect
run fires and then the effect body for the new state runs.
-/

namespace FaceScanner

/-- The ScannerStatus enumeration (src/types, as used by FaceScanner.tsx). -/
inductive ScannerStatus
  | IDLE
  | INITIALIZING
  | DETECTING
  | CAPTURED
  | SCANNING
  | SCAN_PASSED
  | SUCCESS
  | ERROR
  | FINALIZING
  | COUNTDOWN
  | ONBOARDED
  | WELCOME
deriving DecidableEq, Repr

/-- The ordered flavor-text list shown during SCANNING
(FaceScanner.tsx lines 22-36). -/
def SCANNING_TEXTS : List String :=
  [ "Calibrating Quantum Sensors..."
  , "Mapping Facial Topography..."
  , "Acquiring Depth Map..."
  , " analyzing_geometry_mesh_v2..."
  , "Cross-Referencing Neural Signatures..."
  , "Verifying DNA Markers..."
  , "Calculating Cranial Ratios..."
  , "Accessing Interpol-V Database..."
  , "Handshake Protocol Initiated..."
  , "Decompressing Biometric Hash..."
  , "Decrypting Identity Token..."
  , "Matching Facial Nodes..."
  , "Compiling Final Report..." ]

/-- The full disclosure text typed out in the FSA popup
(FaceScanner.tsx line 38). -/
def fullFsaText : String :=
  "Labuan FSA is the statutory body responsible for the development and administration of the Labuan International Business and Financial Centre (Labuan IBFC)"

/-- The error message set when camera acquisition fails
(FaceScanner.tsx line 178). -/
def cameraDeniedMessage : String :=
  "Camera access denied. Please enable camera permissions in your browser settings."

/-- Tags identifying every timer the component arms.  Each tag names the
callback the timer runs; a tag is armed at most once at a time in any
run of the component. -/
inductive TimerTag
  | detectRetry
  | detectMain
  | detectLock
  | capturedToScan
  | scanText
  | scanConf
  | scanMain
  | soundEkyc
  | soundWorld
  | soundName
  | soundPep
  | soundRisk
  | showPopupTimer
  | hidePopupTimer
  | scanPassedMain
  | finalizingMain
  | countdownTick
  | onboardedMain
  | typingTick
deriving DecidableEq, Repr

/-- The three setInterval timers; they stay armed after each firing,
unlike setTimeout timers which are consumed. -/
def isInterval (t : TimerTag) : Bool :=
  match t with
  | .scanText | .scanConf | .typingTick => true
  | _ => false

/-- The five setTimeout handles pushed into the soundTimeouts ref during
SCAN_PASSED (FaceScanner.tsx lines 280-302). -/
def isSoundTag (t : TimerTag) : Bool :=
  match t with
  | .soundEkyc | .soundWorld | .soundName | .soundPep | .soundRisk => true
  | _ => false

/-- The DetectionRegion rectangle (the detectionBox state, FaceScanner.tsx
line 102), in source-frame coordinates. -/
structure Rect where
  x : ℚ
  y : ℚ
  width : ℚ
  height : ℚ
deriving DecidableEq, Repr

/-- The component configuration: useState hooks, refs, interval-callback
closure variables, and the set of armed timers.

snapshot models whether a CaptureArtifact data URL is stored (the pixel
content of the artifact is modelled separately by mirrorDraw).
streamOpen models streamRef.current being a live MediaStream.
cameraPending models an outstanding getUserMedia promise; metaPending
models the onloadedmetadata handler being installed but not yet fired.
videoPlaying models the video element playing (so not paused) with
nonzero dimensions reported as videoWidth/videoHeight.
scanTextIndex and fsaIndex are the closure variables textIndex and index
of the SCANNING text interval and of the FSA typing interval. -/
structure Config where
  status : ScannerStatus
  snapshot : Bool
  errorMessage : Option String
  scanningMessage : String
  detectionBox : Option Rect
  countdown : Int
  showFsaPopup : Bool
  displayedFsaText : String
  isTyping : Bool
  matchConfidence : Nat
  streamOpen : Bool
  cameraPending : Bool
  metaPending : Bool
  videoPlaying : Bool
  detectionActive : Bool
  scanTextIndex : Nat
  fsaIndex : Nat
  videoWidth : ℚ
  videoHeight : ℚ
  pending : TimerTag → Bool

/-- The initial configuration: the useState initial values, refs null,
no timers armed.  videoWidth and videoHeight are the dimensions the
camera will report once playing. -/
def initConfig (vw vh : ℚ) : Config :=
  { status := .IDLE
    snapshot := false
    errorMessage := none
    scanningMessage := SCANNING_TEXTS.getD 0 ""
    detectionBox := none
    countdown := 5
    showFsaPopup := false
    displayedFsaText := ""
    isTyping := false
    matchConfidence := 0
    streamOpen := false
    cameraPending := false
    metaPending := false
    videoPlaying := false
    detectionActive := false
    scanTextIndex := 0
    fsaIndex := 0
    videoWidth := vw
    videoHeight := vh
    pending := fun _ => false }

/-- Arm a timer (setTimeout / setInterval registration). -/
def arm (t : TimerTag) (c : Config) : Config :=
  { c with pending := fun s => if s = t then true else c.pending s }

/-- Cancel a timer (clearTimeout / clearInterval). -/
def cancelT (t : TimerTag) (c : Config) : Config :=
  { c with pending := fun s => if s = t then false else c.pending s }

/-- clearSoundTimeouts (FaceScanner.tsx lines 124-127): clears every
handle in the soundTimeouts ref; in any run those are exactly the armed
sound tags. -/
def clearSoundTimeoutsC (c : Config) : Config :=
  { c with pending := fun s => if isSoundTag s then false else c.pending s }

/-- stopCamera (FaceScanner.tsx lines 117-122): stops all tracks and
nulls streamRef. -/
def stopCameraC (c : Config) : Config :=
  { c with streamOpen := false }

/-- The readiness check at the top of detectFace (FaceScanner.tsx lines
188-193): videoRef exists (always, once mounted), is not paused, and
reports a nonzero videoWidth. -/
def videoReady (c : Config) : Bool :=
  c.videoPlaying && !(c.videoWidth = 0)

/-- The synchronous call detectFace() made on entry to DETECTING
(FaceScanner.tsx lines 187-223): if the video is not ready, schedule a
500 ms retry (guarded by detectionActive); otherwise schedule the mock
10 s detection timer. -/
def detectFaceCall (c : Config) : Config :=
  if !c.detectionActive then c
  else if !(videoReady c) then arm .detectRetry c
  else arm .detectMain c

/-- The DetectionRegion computed by the mock detection callback
(FaceScanner.tsx lines 206-216): a fixed fraction of the frame,
centered. -/
def detectionBoxFor (videoWidth videoHeight : ℚ) : Rect :=
  let boxWidth := videoWidth * 0.3
  let boxHeight := videoHeight * 0.4
  { x := (videoWidth - boxWidth) / 2
    y := (videoHeight - boxHeight) / 2
    width := boxWidth
    height := boxHeight }

/-- The DetectionRegion of the part_003 variant (src/unnamed/part_003
lines 118-128): fractions 0.25 and 0.25, centered. -/
def detectionBoxForAlt (videoWidth videoHeight : ℚ) : Rect :=
  let boxWidth := videoWidth * 0.25
  let boxHeight := videoHeight * 0.25
  { x := (videoWidth - boxWidth) / 2
    y := (videoHeight - boxHeight) / 2
    width := boxWidth
    height := boxHeight }

/-- The pixel semantics of the mirrored canvas draw in captureSnapshot
(FaceScanner.tsx lines 147-150): after translate(width, 0) and
scale(-1, 1), the point of the source frame at horizontal coordinate
w - x lands at destination coordinate x; images are modelled as
intensity functions on rational coordinates. -/
def mirrorDraw (w : ℚ) (frame : ℚ → ℚ → ℚ) : ℚ → ℚ → ℚ :=
  fun x y => frame (w - x) y

/-- The confidence-counter update (FaceScanner.tsx lines 252-257):
increment by 1, held at the ceiling 99. -/
def confStep (prev : Nat) : Nat :=
  if prev ≥ 99 then 99 else prev + 1

/-- The message-rotation index update (FaceScanner.tsx line 246). -/
def nextTextIndex (i : Nat) : Nat :=
  (i + 1) % SCANNING_TEXTS.length

/-- The cleanup registered by the run of the main useEffect that was
installed for the old configuration (the dependency keys are status and
countdown).  IDLE, INITIALIZING, SUCCESS and ERROR register no cleanup;
DETECTING only lowers the detectionActive flag (its timers stay armed
but their callbacks are guarded, except the unguarded capture lock
timer); WELCOME only pauses the audio element. -/
def cleanupMain (old : Config) (c : Config) : Config :=
  match old.status with
  | .DETECTING => { c with detectionActive := false }
  | .CAPTURED => cancelT .capturedToScan c
  | .SCANNING => cancelT .scanConf (cancelT .scanText (cancelT .scanMain c))
  | .SCAN_PASSED =>
      cancelT .scanPassedMain (cancelT .hidePopupTimer
        (cancelT .showPopupTimer (clearSoundTimeoutsC c)))
  | .FINALIZING => cancelT .finalizingMain c
  | .COUNTDOWN => if 0 < old.countdown then cancelT .countdownTick c else c
  | .ONBOARDED => cancelT .onboardedMain c
  | _ => c

/-- The body of the main useEffect (FaceScanner.tsx lines 160-370) for
the current status.  The COUNTDOWN branch with countdown at zero calls
setStatus(ONBOARDED) synchronously inside the effect; since that run
registers no cleanup, the subsequent ONBOARDED effect run is unfolded
here directly. -/
def effectMain (c : Config) : Config :=
  match c.status with
  | .INITIALIZING => { c with cameraPending := true }
  | .DETECTING => detectFaceCall { c with detectionActive := true }
  | .CAPTURED => arm .capturedToScan c
  | .SCANNING =>
      arm .scanMain (arm .scanConf (arm .scanText
        { c with scanningMessage := SCANNING_TEXTS.getD 0 ""
                 matchConfidence := 0
                 scanTextIndex := 0 }))
  | .SCAN_PASSED =>
      arm .scanPassedMain (arm .hidePopupTimer (arm .showPopupTimer
        (arm .soundRisk (arm .soundPep (arm .soundName (arm .soundWorld
          (arm .soundEkyc (clearSoundTimeoutsC c))))))))
  | .FINALIZING => arm .finalizingMain c
  | .COUNTDOWN =>
      if 0 < c.countdown then arm .countdownTick c
      else arm .onboardedMain { c with status := .ONBOARDED }
  | .ONBOARDED => arm .onboardedMain c
  | .SUCCESS => stopCameraC c
  | .ERROR => stopCameraC c
  | _ => c

/-- The cleanup of the FSA popup typing useEffect (FaceScanner.tsx lines
387-391); it is registered only when the run saw showFsaPopup true. -/
def cleanupFsa (old : Config) (c : Config) : Config :=
  if old.showFsaPopup then
    { cancelT .typingTick c with isTyping := false, displayedFsaText := "" }
  else c

/-- The body of the FSA popup typing useEffect (FaceScanner.tsx lines
373-386): when the popup is shown, start typing from closure index 0 and
arm the 15 ms interval. -/
def effectFsa (c : Config) : Config :=
  if c.showFsaPopup then
    arm .typingTick { c with isTyping := true, fsaIndex := 0 }
  else c

/-- React re-render bookkeeping: after a batch of state updates turning
the configuration old into c, each useEffect whose dependency keys
changed runs its previous cleanup and then its body. -/
def rerenderFrom (old : Config) (c : Config) : Config :=
  let c1 :=
    if old.status = c.status ∧ old.countdown = c.countdown then c
    else effectMain (cleanupMain old c)
  if old.showFsaPopup = c1.showFsaPopup then c1
  else effectFsa (cleanupFsa old c1)

/-- Whether the video element is mounted, so videoRef.current is
non-null: the render tree contains the video only on the camera screens
(the default renderContent branch) while no snapshot is stored (a stored
snapshot replaces the video with an img); React nulls the ref when the
element unmounts. -/
def videoMounted (c : Config) : Bool :=
  (c.status = .INITIALIZING ∨ c.status = .DETECTING ∨ c.status = .CAPTURED ∨
    c.status = .SCANNING ∨ c.status = .SCAN_PASSED) && !c.snapshot

/-- captureSnapshot (FaceScanner.tsx lines 139-158): guarded by
videoRef.current and canvasRef.current being non-null — the canvas is
rendered on every screen, so only the video mount matters — and by
getContext succeeding; inside the guard the mirrored frame is encoded
and stored as the snapshot, the status moves to CAPTURED, and the
camera stream is stopped.  When the video element is not mounted the
call is a no-op. -/
def captureSnapshotC (c : Config) : Config :=
  if videoMounted c then
    rerenderFrom c
      (stopCameraC { c with snapshot := true, status := .CAPTURED })
  else c

/-- handleReset (FaceScanner.tsx lines 129-137). -/
def handleResetC (c : Config) : Config :=
  rerenderFrom c
    { clearSoundTimeoutsC c with
        snapshot := false
        errorMessage := none
        detectionBox := none
        showFsaPopup := false
        matchConfidence := 0
        status := .IDLE }

/-- handleStart (FaceScanner.tsx lines 398-402): handleReset() followed
by setStatus(INITIALIZING), batched in one click handler. -/
def handleStartC (c : Config) : Config :=
  rerenderFrom c
    { clearSoundTimeoutsC c with
        snapshot := false
        errorMessage := none
        detectionBox := none
        showFsaPopup := false
        matchConfidence := 0
        status := .INITIALIZING }

/-- The callback run when the timer tagged t fires; the configuration
already has the tag consumed when t is a setTimeout timer. -/
def runCallback (t : TimerTag) (c : Config) : Config :=
  match t with
  | .detectRetry =>
      if !c.detectionActive then c
      else if !(videoReady c) then arm .detectRetry c
      else arm .detectMain c
  | .detectMain =>
      if !c.detectionActive then c
      else
        rerenderFrom c (arm .detectLock
          { c with detectionActive := false
                   detectionBox := some (detectionBoxFor c.videoWidth c.videoHeight) })
  | .detectLock => captureSnapshotC c
  | .capturedToScan => rerenderFrom c { c with status := .SCANNING }
  | .scanText =>
      rerenderFrom c
        { c with scanTextIndex := nextTextIndex c.scanTextIndex
                 scanningMessage := SCANNING_TEXTS.getD (nextTextIndex c.scanTextIndex) "" }
  | .scanConf => rerenderFrom c { c with matchConfidence := confStep c.matchConfidence }
  | .scanMain => rerenderFrom c { c with matchConfidence := 100, status := .SCAN_PASSED }
  | .soundEkyc => c
  | .soundWorld => c
  | .soundName => c
  | .soundPep => c
  | .soundRisk => c
  | .showPopupTimer => rerenderFrom c { c with showFsaPopup := true }
  | .hidePopupTimer => rerenderFrom c { c with showFsaPopup := false }
  | .scanPassedMain => rerenderFrom c { c with status := .FINALIZING }
  | .finalizingMain => rerenderFrom c { c with countdown := 5, status := .COUNTDOWN }
  | .countdownTick => rerenderFrom c { c with countdown := c.countdown - 1 }
  | .onboardedMain => rerenderFrom c { c with status := .WELCOME }
  | .typingTick =>
      let c1 := { c with displayedFsaText := fullFsaText.take c.fsaIndex
                         fsaIndex := c.fsaIndex + 1 }
      if c1.fsaIndex > fullFsaText.length then
        { cancelT .typingTick c1 with isTyping := false }
      else c1

/-- A timer can fire only while armed; setTimeout timers are consumed by
firing, setInterval timers stay armed. -/
def fireTimer (t : TimerTag) (c : Config) : Config :=
  if c.pending t then
    runCallback t (if isInterval t then c else cancelT t c)
  else c

/-- The events of the environment: the user clicking the one button the
current screen offers (Start Scan in IDLE; New Scan, Retry or Proceed in
SUCCESS, ERROR, WELCOME), the camera acquisition callbacks, the video
metadata callback, and timer expiry. -/
inductive Event
  | startClick
  | resetClick
  | cameraGranted
  | cameraDenied
  | metadataLoaded
  | fire (t : TimerTag)

/-- The event-step function.  startClick is only offered by the IDLE
screen and resetClick only by the SUCCESS, ERROR and WELCOME screens;
the camera callbacks resolve an outstanding request. -/
def step (e : Event) (c : Config) : Config :=
  match e with
  | .startClick => if c.status = .IDLE then handleStartC c else c
  | .resetClick =>
      if c.status = .SUCCESS ∨ c.status = .ERROR ∨ c.status = .WELCOME then
        handleResetC c
      else c
  | .cameraGranted =>
      if c.cameraPending then
        { c with cameraPending := false, streamOpen := true, metaPending := true }
      else c
  | .cameraDenied =>
      if c.cameraPending then
        rerenderFrom c
          { c with cameraPending := false
                   errorMessage := some cameraDeniedMessage
                   status := .ERROR }
      else c
  | .metadataLoaded =>
      if c.metaPending then
        rerenderFrom c
          { c with metaPending := false, videoPlaying := true, status := .DETECTING }
      else c
  | .fire t => fireTimer t c

/-- Run a list of events in order. -/
def runTrace (es : List Event) (c : Config) : Config :=
  es.foldl (fun d e => step e d) c

/-- Reachable configurations of the component for a camera reporting
frame dimensions vw by vh. -/
inductive Reachable (vw vh : ℚ) : Config → Prop
  | init : Reachable vw vh (initConfig vw vh)
  | next (e : Event) {c : Config} : Reachable vw vh c → Reachable vw vh (step e c)


/-- Where each timer tag can legitimately be armed.  The detection retry
and mock-detection timers run only while the detectionActive flag is
up; the unguarded capture lock timer is armed by the mock-detection
callback after it lowers the flag; the typing interval is tied to the
popup being shown, not to a status. -/
def timerOk (c : Config) (t : TimerTag) : Prop :=
  match t with
  | .detectRetry => c.status = .DETECTING ∧ c.detectionActive = true
  | .detectMain => c.status = .DETECTING ∧ c.detectionActive = true
  | .detectLock => c.status = .DETECTING ∧ c.detectionActive = false
  | .capturedToScan => c.status = .CAPTURED
  | .scanText => c.status = .SCANNING
  | .scanConf => c.status = .SCANNING
  | .scanMain => c.status = .SCANNING
  | .soundEkyc => c.status = .SCAN_PASSED
  | .soundWorld => c.status = .SCAN_PASSED
  | .soundName => c.status = .SCAN_PASSED
  | .soundPep => c.status = .SCAN_PASSED
  | .soundRisk => c.status = .SCAN_PASSED
  | .showPopupTimer => c.status = .SCAN_PASSED
  | .hidePopupTimer => c.status = .SCAN_PASSED
  | .scanPassedMain => c.status = .SCAN_PASSED
  | .finalizingMain => c.status = .FINALIZING
  | .countdownTick => c.status = .COUNTDOWN ∧ 0 < c.countdown
  | .onboardedMain => c.status = .ONBOARDED
  | .typingTick => c.showFsaPopup = true

/-- The inductive invariant of the event system. -/
structure Inv (c : Config) : Prop where
  timers : ∀ t, c.pending t = true → timerOk c t
  camPend : c.cameraPending = true →
    c.status = .INITIALIZING ∧ c.streamOpen = false ∧ c.metaPending = false
  metaPend : c.metaPending = true →
    c.status = .INITIALIZING ∧ c.streamOpen = true
  streamStatus : c.streamOpen = true →
    c.status = .INITIALIZING ∨ c.status = .DETECTING
  detectingStream : c.status = .DETECTING → c.streamOpen = true
  popupClosed :
    c.status = .IDLE ∨ c.status = .INITIALIZING ∨ c.status = .DETECTING ∨
      c.status = .CAPTURED ∨ c.status = .SCANNING ∨ c.status = .ERROR →
    c.showFsaPopup = false
  noSuccess : c.status ≠ .SUCCESS
  countdownNonneg : 0 ≤ c.countdown
  countdownPos : c.status = .COUNTDOWN → 0 < c.countdown
  retryMainExcl : ¬(c.pending .detectRetry = true ∧ c.pending .detectMain = true)
  confCeiling : c.status = .SCANNING → c.matchConfidence ≤ 99
  hiddenCleared : c.showFsaPopup = false →
    c.displayedFsaText = "" ∧ c.isTyping = false
  displayedTake : ∃ n, c.displayedFsaText = fullFsaText.take n

/-- Configurations right after a reset: IDLE with the artifacts cleared
and the popup hidden, only the detection timers possibly still armed
(handleReset cancels nothing else it leaves behind), and the
detectionActive flag down whenever the guarded detection callbacks are
armed, so no armed timer callback can change any state hook.  The flag s
records the stream handle, which reset never touches. -/
def postResetQuiet (s : Bool) (d : Config) : Prop :=
  d.status = .IDLE ∧
  d.snapshot = false ∧
  d.errorMessage = none ∧
  d.detectionBox = none ∧
  d.showFsaPopup = false ∧
  d.matchConfidence = 0 ∧
  d.streamOpen = s ∧
  (∀ t, d.pending t = true →
    t = TimerTag.detectRetry ∨ t = TimerTag.detectMain ∨ t = TimerTag.detectLock) ∧
  (d.pending .detectRetry = true ∨ d.pending .detectMain = true →
    d.detectionActive = false)

/-- The canonical demo run for a camera reporting 640 by 480: start, a
granted camera, the video metadata callback, then the mock detection and
capture timers, the capture-to-scan timer and the scan phase timer. -/
def demoDetecting : Config :=
  runTrace [.startClick, .cameraGranted, .metadataLoaded] (initConfig 640 480)

/-- After the mock detection fired: DetectionRegion set, lock timer armed. -/
def demoLockArmed : Config := step (.fire .detectMain) demoDetecting

/-- After the capture lock fired: snapshot stored, camera released. -/
def demoCaptured : Config := step (.fire .detectLock) demoLockArmed

/-- After the CAPTURED dwell timer fired: the SCANNING phase. -/
def demoScanning : Config := step (.fire .capturedToScan) demoCaptured

/-- After the SCANNING phase timer fired: the SCAN_PASSED choreography armed. -/
def demoScanPassed : Config := step (.fire .scanMain) demoScanning

/-- Partway through the SCAN_PASSED choreography: one reveal timer fired. -/
def demoPartial : Config := step (.fire .soundEkyc) demoScanPassed

/-- The FSA disclosure popup just shown, typing armed. -/
def demoPopupShown : Config := step (.fire .showPopupTimer) demoScanPassed

/-- SCAN_PASSED finished: FINALIZING with its 4 s timer armed. -/
def demoFinalizing : Config := step (.fire .scanPassedMain) demoPartial

/-- A run in which camera permission was denied from INITIALIZING. -/
def demoError : Config :=
  runTrace [.startClick, .cameraDenied] (initConfig 640 480)

/-! Projection lemmas: timer-registry operations change only the pending
field (and stopCamera only the stream flag); keeping these as rewrite
rules lets proofs reason about composed operations without expanding
configuration records. -/
@[simp] lemma arm_status (t : TimerTag) (c : Config) : (arm t c).status = c.status := rfl
@[simp] lemma arm_snapshot (t : TimerTag) (c : Config) : (arm t c).snapshot = c.snapshot := rfl
@[simp] lemma arm_errorMessage (t : TimerTag) (c : Config) : (arm t c).errorMessage = c.errorMessage := rfl
@[simp] lemma arm_scanningMessage (t : TimerTag) (c : Config) : (arm t c).scanningMessage = c.scanningMessage := rfl
@[simp] lemma arm_detectionBox (t : TimerTag) (c : Config) : (arm t c).detectionBox = c.detectionBox := rfl
@[simp] lemma arm_countdown (t : TimerTag) (c : Config) : (arm t c).countdown = c.countdown := rfl
@[simp] lemma arm_showFsaPopup (t : TimerTag) (c : Config) : (arm t c).showFsaPopup = c.showFsaPopup := rfl
@[simp] lemma arm_displayedFsaText (t : TimerTag) (c : Config) : (arm t c).displayedFsaText = c.displayedFsaText := rfl
@[simp] lemma arm_isTyping (t : TimerTag) (c : Config) : (arm t c).isTyping = c.isTyping := rfl
@[simp] lemma arm_matchConfidence (t : TimerTag) (c : Config) : (arm t c).matchConfidence = c.matchConfidence := rfl
@[simp] lemma arm_streamOpen (t : TimerTag) (c : Config) : (arm t c).streamOpen = c.streamOpen := rfl
@[simp] lemma arm_cameraPending (t : TimerTag) (c : Config) : (arm t c).cameraPending = c.cameraPending := rfl
@[simp] lemma arm_metaPending (t : TimerTag) (c : Config) : (arm t c).metaPending = c.metaPending := rfl
@[simp] lemma arm_videoPlaying (t : TimerTag) (c : Config) : (arm t c).videoPlaying = c.videoPlaying := rfl
@[simp] lemma arm_detectionActive (t : TimerTag) (c : Config) : (arm t c).detectionActive = c.detectionActive := rfl
@[simp] lemma arm_scanTextIndex (t : TimerTag) (c : Config) : (arm t c).scanTextIndex = c.scanTextIndex := rfl
@[simp] lemma arm_fsaIndex (t : TimerTag) (c : Config) : (arm t c).fsaIndex = c.fsaIndex := rfl
@[simp] lemma arm_videoWidth (t : TimerTag) (c : Config) : (arm t c).videoWidth = c.videoWidth := rfl
@[simp] lemma arm_videoHeight (t : TimerTag) (c : Config) : (arm t c).videoHeight = c.videoHeight := rfl
@[simp] lemma arm_pending (t : TimerTag) (c : Config) (s : TimerTag) :
    (arm t c).pending s = if s = t then true else c.pending s := rfl
@[simp] lemma cancelT_status (t : TimerTag) (c : Config) : (cancelT t c).status = c.status := rfl
@[simp] lemma cancelT_snapshot (t : TimerTag) (c : Config) : (cancelT t c).snapshot = c.snapshot := rfl
@[simp] lemma cancelT_errorMessage (t : TimerTag) (c : Config) : (cancelT t c).errorMessage = c.errorMessage := rfl
@[simp] lemma cancelT_scanningMessage (t : TimerTag) (c : Config) : (cancelT t c).scanningMessage = c.scanningMessage := rfl
@[simp] lemma cancelT_detectionBox (t : TimerTag) (c : Config) : (cancelT t c).detectionBox = c.detectionBox := rfl
@[simp] lemma cancelT_countdown (t : TimerTag) (c : Config) : (cancelT t c).countdown = c.countdown := rfl
@[simp] lemma cancelT_showFsaPopup (t : TimerTag) (c : Config) : (cancelT t c).showFsaPopup = c.showFsaPopup := rfl
@[simp] lemma cancelT_displayedFsaText (t : TimerTag) (c : Config) : (cancelT t c).displayedFsaText = c.displayedFsaText := rfl
@[simp] lemma cancelT_isTyping (t : TimerTag) (c : Config) : (cancelT t c).isTyping = c.isTyping := rfl
@[simp] lemma cancelT_matchConfidence (t : TimerTag) (c : Config) : (cancelT t c).matchConfidence = c.matchConfidence := rfl
@[simp] lemma cancelT_streamOpen (t : TimerTag) (c : Config) : (cancelT t c).streamOpen = c.streamOpen := rfl
@[simp] lemma cancelT_cameraPending (t : TimerTag) (c : Config) : (cancelT t c).cameraPending = c.cameraPending := rfl
@[simp] lemma cancelT_metaPending (t : TimerTag) (c : Config) : (cancelT t c).metaPending = c.metaPending := rfl
@[simp] lemma cancelT_videoPlaying (t : TimerTag) (c : Config) : (cancelT t c).videoPlaying = c.videoPlaying := rfl
@[simp] lemma cancelT_detectionActive (t : TimerTag) (c : Config) : (cancelT t c).detectionActive = c.detectionActive := rfl
@[simp] lemma cancelT_scanTextIndex (t : TimerTag) (c : Config) : (cancelT t c).scanTextIndex = c.scanTextIndex := rfl
@[simp] lemma cancelT_fsaIndex (t : TimerTag) (c : Config) : (cancelT t c).fsaIndex = c.fsaIndex := rfl
@[simp] lemma cancelT_videoWidth (t : TimerTag) (c : Config) : (cancelT t c).videoWidth = c.videoWidth := rfl
@[simp] lemma cancelT_videoHeight (t : TimerTag) (c : Config) : (cancelT t c).videoHeight = c.videoHeight := rfl
@[simp] lemma cancelT_pending (t : TimerTag) (c : Config) (s : TimerTag) :
    (cancelT t c).pending s = if s = t then false else c.pending s := rfl
@[simp] lemma clearSounds_status (c : Config) : (clearSoundTimeoutsC c).status = c.status := rfl
@[simp] lemma clearSounds_snapshot (c : Config) : (clearSoundTimeoutsC c).snapshot = c.snapshot := rfl
@[simp] lemma clearSounds_errorMessage (c : Config) : (clearSoundTimeoutsC c).errorMessage = c.errorMessage := rfl
@[simp] lemma clearSounds_scanningMessage (c : Config) : (clearSoundTimeoutsC c).scanningMessage = c.scanningMessage := rfl
@[simp] lemma clearSounds_detectionBox (c : Config) : (clearSoundTimeoutsC c).detectionBox = c.detectionBox := rfl
@[simp] lemma clearSounds_countdown (c : Config) : (clearSoundTimeoutsC c).countdown = c.countdown := rfl
@[simp] lemma clearSounds_showFsaPopup (c : Config) : (clearSoundTimeoutsC c).showFsaPopup = c.showFsaPopup := rfl
@[simp] lemma clearSounds_displayedFsaText (c : Config) : (clearSoundTimeoutsC c).displayedFsaText = c.displayedFsaText := rfl
@[simp] lemma clearSounds_isTyping (c : Config) : (clearSoundTimeoutsC c).isTyping = c.isTyping := rfl
@[simp] lemma clearSounds_matchConfidence (c : Config) : (clearSoundTimeoutsC c).matchConfidence = c.matchConfidence := rfl
@[simp] lemma clearSounds_streamOpen (c : Config) : (clearSoundTimeoutsC c).streamOpen = c.streamOpen := rfl
@[simp] lemma clearSounds_cameraPending (c : Config) : (clearSoundTimeoutsC c).cameraPending = c.cameraPending := rfl
@[simp] lemma clearSounds_metaPending (c : Config) : (clearSoundTimeoutsC c).metaPending = c.metaPending := rfl
@[simp] lemma clearSounds_videoPlaying (c : Config) : (clearSoundTimeoutsC c).videoPlaying = c.videoPlaying := rfl
@[simp] lemma clearSounds_detectionActive (c : Config) : (clearSoundTimeoutsC c).detectionActive = c.detectionActive := rfl
@[simp] lemma clearSounds_scanTextIndex (c : Config) : (clearSoundTimeoutsC c).scanTextIndex = c.scanTextIndex := rfl
@[simp] lemma clearSounds_fsaIndex (c : Config) : (clearSoundTimeoutsC c).fsaIndex = c.fsaIndex := rfl
@[simp] lemma clearSounds_videoWidth (c : Config) : (clearSoundTimeoutsC c).videoWidth = c.videoWidth := rfl
@[simp] lemma clearSounds_videoHeight (c : Config) : (clearSoundTimeoutsC c).videoHeight = c.videoHeight := rfl
@[simp] lemma clearSounds_pending (c : Config) (s : TimerTag) :
    (clearSoundTimeoutsC c).pending s = if isSoundTag s then false else c.pending s := rfl
@[simp] lemma stopCamera_status (c : Config) : (stopCameraC c).status = c.status := rfl
@[simp] lemma stopCamera_snapshot (c : Config) : (stopCameraC c).snapshot = c.snapshot := rfl
@[simp] lemma stopCamera_errorMessage (c : Config) : (stopCameraC c).errorMessage = c.errorMessage := rfl
@[simp] lemma stopCamera_scanningMessage (c : Config) : (stopCameraC c).scanningMessage = c.scanningMessage := rfl
@[simp] lemma stopCamera_detectionBox (c : Config) : (stopCameraC c).detectionBox = c.detectionBox := rfl
@[simp] lemma stopCamera_countdown (c : Config) : (stopCameraC c).countdown = c.countdown := rfl
@[simp] lemma stopCamera_showFsaPopup (c : Config) : (stopCameraC c).showFsaPopup = c.showFsaPopup := rfl
@[simp] lemma stopCamera_displayedFsaText (c : Config) : (stopCameraC c).displayedFsaText = c.displayedFsaText := rfl
@[simp] lemma stopCamera_isTyping (c : Config) : (stopCameraC c).isTyping = c.isTyping := rfl
@[simp] lemma stopCamera_matchConfidence (c : Config) : (stopCameraC c).matchConfidence = c.matchConfidence := rfl
@[simp] lemma stopCamera_streamOpen (c : Config) : (stopCameraC c).streamOpen = false := rfl
@[simp] lemma stopCamera_cameraPending (c : Config) : (stopCameraC c).cameraPending = c.cameraPending := rfl
@[simp] lemma stopCamera_metaPending (c : Config) : (stopCameraC c).metaPending = c.metaPending := rfl
@[simp] lemma stopCamera_videoPlaying (c : Config) : (stopCameraC c).videoPlaying = c.videoPlaying := rfl
@[simp] lemma stopCamera_detectionActive (c : Config) : (stopCameraC c).detectionActive = c.detectionActive := rfl
@[simp] lemma stopCamera_scanTextIndex (c : Config) : (stopCameraC c).scanTextIndex = c.scanTextIndex := rfl
@[simp] lemma stopCamera_fsaIndex (c : Config) : (stopCameraC c).fsaIndex = c.fsaIndex := rfl
@[simp] lemma stopCamera_videoWidth (c : Config) : (stopCameraC c).videoWidth = c.videoWidth := rfl
@[simp] lemma stopCamera_videoHeight (c : Config) : (stopCameraC c).videoHeight = c.videoHeight := rfl
@[simp] lemma stopCamera_pending (c : Config) (s : TimerTag) :
    (stopCameraC c).pending s = c.pending s := rfl

end FaceScanner

namespace FaceScanner

lemma inv_init (vw vh : ℚ) : Inv (initConfig vw vh) := by
  constructor <;> simp [initConfig]
  exact ⟨0, rfl⟩

/-- In IDLE, INITIALIZING and ERROR no timer is armed. -/
lemma pending_false_of_idle_like (c : Config) (inv : Inv c)
    (hs : c.status = .IDLE ∨ c.status = .INITIALIZING ∨ c.status = .ERROR)
    (t : TimerTag) : c.pending t = false := by
  by_contra h
  have hok := inv.timers t (by simpa using h)
  have hpop := inv.popupClosed (by tauto)
  rcases hs with h1 | h1 | h1 <;> cases t <;> simp_all [timerOk]

lemma inv_step_startClick (c : Config) (inv : Inv c) : Inv (step .startClick c) := by
  by_cases hs : c.status = .IDLE
  · have hpop := inv.popupClosed (by tauto)
    have hpend := pending_false_of_idle_like c inv (by tauto)
    have hopen : c.streamOpen = false := by
      by_contra h
      rcases inv.streamStatus (by simpa using h) with h1 | h1 <;> simp_all
    have hmeta : c.metaPending = false := by
      by_contra h
      have := inv.metaPend (by simpa using h)
      simp_all
    have hcd := inv.countdownNonneg
    have hdisp := inv.displayedTake
    have hh := inv.hiddenCleared hpop
    constructor <;>
      simp_all [step, handleStartC, rerenderFrom, cleanupMain, effectMain, cleanupFsa,
        effectFsa, timerOk, detectFaceCall, videoReady,
        stopCameraC]
  · simpa [step, hs] using inv

lemma cameraPending_false (c : Config) (inv : Inv c) (h : c.status ≠ .INITIALIZING) :
    c.cameraPending = false := by
  by_contra hh
  exact h (inv.camPend (by simpa using hh)).1

lemma metaPending_false (c : Config) (inv : Inv c) (h : c.status ≠ .INITIALIZING) :
    c.metaPending = false := by
  by_contra hh
  exact h (inv.metaPend (by simpa using hh)).1

lemma inv_step_resetClick (c : Config) (inv : Inv c) : Inv (step .resetClick c) := by
  by_cases hs : c.status = .SUCCESS ∨ c.status = .ERROR ∨ c.status = .WELCOME
  · have hcam := cameraPending_false c inv (by rcases hs with h | h | h <;> simp [h])
    have hmeta := metaPending_false c inv (by rcases hs with h | h | h <;> simp [h])
    have hopen : c.streamOpen = false := by
      by_contra h
      rcases inv.streamStatus (by simpa using h) with h2 | h2 <;>
        rcases hs with h1 | h1 | h1 <;> simp_all
    have hcd := inv.countdownNonneg
    rcases hs with h1 | h1 | h1
    · exact absurd h1 inv.noSuccess
    · have hpop := inv.popupClosed (by tauto)
      have hpend := pending_false_of_idle_like c inv (by tauto)
      have hh := inv.hiddenCleared hpop
      constructor <;>
        simp_all [step, handleResetC, rerenderFrom, cleanupMain, effectMain, cleanupFsa,
          effectFsa, timerOk]
      exact ⟨0, by decide⟩
    · have hpend : ∀ t, t ≠ TimerTag.typingTick → c.pending t = false := by
        intro t ht
        by_contra h
        have hok := inv.timers t (by simpa using h)
        cases t <;> simp_all [timerOk]
      by_cases hpop : c.showFsaPopup = true
      · constructor <;>
          simp_all [step, handleResetC, rerenderFrom, cleanupMain, effectMain, cleanupFsa,
            effectFsa, timerOk]
        exact ⟨0, by decide⟩
      · have hh := inv.hiddenCleared (by simpa using hpop)
        constructor <;>
          simp_all [step, handleResetC, rerenderFrom, cleanupMain, effectMain, cleanupFsa,
            effectFsa, timerOk]
        · intro t h1 h2
          have h3 := hpend t
          have h4 := inv.timers t h2
          cases t <;> simp_all [timerOk]
        · exact ⟨0, by decide⟩
  · have hs2 : step .resetClick c = c := by
      simp only [step]
      rw [if_neg hs]
    rw [hs2]
    exact inv

lemma inv_step_cameraGranted (c : Config) (inv : Inv c) : Inv (step .cameraGranted c) := by
  by_cases hp : c.cameraPending = true
  · obtain ⟨hst, hopen, hmeta⟩ := inv.camPend hp
    have hpop := inv.popupClosed (by tauto)
    have hpend := pending_false_of_idle_like c inv (by tauto)
    have hcd := inv.countdownNonneg
    have hh := inv.hiddenCleared hpop
    constructor <;> simp_all [step, timerOk]
    exact ⟨0, by decide⟩
  · have hs2 : step .cameraGranted c = c := by
      simp only [step]
      rw [if_neg hp]
    rw [hs2]
    exact inv

lemma inv_step_cameraDenied (c : Config) (inv : Inv c) : Inv (step .cameraDenied c) := by
  by_cases hp : c.cameraPending = true
  · obtain ⟨hst, hopen, hmeta⟩ := inv.camPend hp
    have hpop := inv.popupClosed (by tauto)
    have hpend := pending_false_of_idle_like c inv (by tauto)
    have hcd := inv.countdownNonneg
    have hh := inv.hiddenCleared hpop
    constructor <;>
      simp_all [step, rerenderFrom, cleanupMain, effectMain, timerOk]
    exact ⟨0, by decide⟩
  · have hs2 : step .cameraDenied c = c := by
      simp only [step]
      rw [if_neg hp]
    rw [hs2]
    exact inv

lemma inv_step_metadataLoaded (c : Config) (inv : Inv c) : Inv (step .metadataLoaded c) := by
  by_cases hp : c.metaPending = true
  · obtain ⟨hst, hopen⟩ := inv.metaPend hp
    have hpop := inv.popupClosed (by tauto)
    have hpend := pending_false_of_idle_like c inv (by tauto)
    have hcam : c.cameraPending = false := by
      by_contra hh2
      have := (inv.camPend (by simpa using hh2)).2.2
      simp_all
    have hcd := inv.countdownNonneg
    have hh := inv.hiddenCleared hpop
    by_cases hvw : c.videoWidth = 0
    · constructor <;>
        simp_all [step, rerenderFrom, cleanupMain, effectMain, detectFaceCall, videoReady,
          arm, timerOk]
      exact ⟨0, by decide⟩
    · constructor <;>
        simp_all [step, rerenderFrom, cleanupMain, effectMain, detectFaceCall, videoReady,
          arm, timerOk]
      exact ⟨0, by decide⟩
  · have hs2 : step .metadataLoaded c = c := by
      simp only [step]
      rw [if_neg hp]
    rw [hs2]
    exact inv

lemma pending_false_of_not_ok (c : Config) (inv : Inv c) (t : TimerTag)
    (h : ¬ timerOk c t) : c.pending t = false := by
  by_contra hh
  exact h (inv.timers t (by simpa using hh))

lemma confStep_le (p : Nat) : confStep p ≤ 99 := by
  unfold confStep
  split <;> omega

lemma inv_fire_not_pending (c : Config) (inv : Inv c) (t : TimerTag)
    (hp : ¬ c.pending t = true) : Inv (fireTimer t c) := by
  have hs2 : fireTimer t c = c := by
    simp only [fireTimer]
    rw [if_neg hp]
  rw [hs2]
  exact inv

set_option maxHeartbeats 1000000 in
lemma inv_fire_detectRetry (c : Config) (inv : Inv c) :
    Inv (fireTimer .detectRetry c) := by
  by_cases hp : c.pending .detectRetry = true
  · obtain ⟨hst, hact⟩ := inv.timers _ hp
    have hrm : c.pending .detectMain = false := by
      have := inv.retryMainExcl
      by_contra hh
      simp_all
    have hpop := inv.popupClosed (by tauto)
    have hh := inv.hiddenCleared hpop
    obtain ⟨hti, hcam2, hmeta2, hss, hds, hpc, hns, hcn, hcp, hrme, hcc, hhc, hdt⟩ := inv
    by_cases hpl : c.videoPlaying = true
    · by_cases hvw : c.videoWidth = 0
      · constructor <;>
          simp_all [fireTimer, isInterval, runCallback, videoReady, timerOk]
      · constructor <;>
          simp_all [fireTimer, isInterval, runCallback, videoReady, timerOk]
    · constructor <;>
        simp_all [fireTimer, isInterval, runCallback, videoReady, timerOk]
  · exact inv_fire_not_pending c inv _ hp

lemma inv_fire_detectMain (c : Config) (inv : Inv c) :
    Inv (fireTimer .detectMain c) := by
  by_cases hp : c.pending .detectMain = true
  · obtain ⟨hst, hact⟩ := inv.timers _ hp
    have hrm : c.pending .detectRetry = false := by
      have := inv.retryMainExcl
      by_contra hh
      simp_all
    have hpop := inv.popupClosed (by tauto)
    have hh := inv.hiddenCleared hpop
    obtain ⟨hti, hcam2, hmeta2, hss, hds, hpc, hns, hcn, hcp, hrme, hcc, hhc, hdt⟩ := inv
    constructor <;>
      simp_all [fireTimer, isInterval, runCallback, rerenderFrom, timerOk]
    intro a ha h
    have h2 := hti a h
    cases a <;> simp_all
  · exact inv_fire_not_pending c inv _ hp

lemma inv_cancelT (c : Config) (inv : Inv c) (t : TimerTag) : Inv (cancelT t c) := by
  obtain ⟨hti, hcam2, hmeta2, hss, hds, hpc, hns, hcn, hcp, hrme, hcc, hhc, hdt⟩ := inv
  refine ⟨?_, hcam2, hmeta2, hss, hds, hpc, hns, hcn, hcp, ?_, hcc, hhc, hdt⟩
  · intro s hs
    have hs2 : c.pending s = true := by
      by_cases h : s = t
      · subst h
        simp at hs
      · simpa [h] using hs
    exact hti s hs2
  · by_cases h1 : TimerTag.detectRetry = t <;> by_cases h2 : TimerTag.detectMain = t <;>
      simp_all [cancelT]

lemma inv_fire_detectLock (c : Config) (inv : Inv c) :
    Inv (fireTimer .detectLock c) := by
  by_cases hp : c.pending .detectLock = true
  · obtain ⟨hst, hact⟩ := inv.timers _ hp
    by_cases hsn : c.snapshot = true
    · have heq : fireTimer .detectLock c = cancelT .detectLock c := by
        simp [fireTimer, hp, isInterval, runCallback, captureSnapshotC, videoMounted, hsn]
      rw [heq]
      exact inv_cancelT c inv _
    · have hpop := inv.popupClosed (by tauto)
      have hh := inv.hiddenCleared hpop
      have hu : ∀ t, t ≠ TimerTag.detectLock → c.pending t = false := by
        intro t ht
        by_contra hh2
        have := inv.timers t (by simpa using hh2)
        cases t <;> simp_all [timerOk]
      obtain ⟨hti, hcam2, hmeta2, hss, hds, hpc, hns, hcn, hcp, hrme, hcc, hhc, hdt⟩ := inv
      constructor <;>
        simp_all [fireTimer, isInterval, runCallback, captureSnapshotC, videoMounted,
          rerenderFrom, cleanupMain, effectMain, cleanupFsa, effectFsa, timerOk]
  · exact inv_fire_not_pending c inv _ hp

lemma inv_fire_sound (c : Config) (inv : Inv c) (t : TimerTag)
    (hsnd : isSoundTag t = true) : Inv (fireTimer t c) := by
  by_cases hp : c.pending t = true
  · have hni : isInterval t = false := by
      cases t <;> simp_all [isSoundTag, isInterval]
    have hcb : runCallback t (cancelT t c) = cancelT t c := by
      cases t <;> simp_all [isSoundTag, runCallback]
    have hs2 : fireTimer t c = cancelT t c := by
      simp [fireTimer, hp, hni, hcb]
    rw [hs2]
    exact inv_cancelT c inv t
  · exact inv_fire_not_pending c inv _ hp

lemma inv_fire_capturedToScan (c : Config) (inv : Inv c) :
    Inv (fireTimer .capturedToScan c) := by
  by_cases hp : c.pending .capturedToScan = true
  · have hst : c.status = .CAPTURED := inv.timers _ hp
    have hpop := inv.popupClosed (by tauto)
    have hh := inv.hiddenCleared hpop
    have hcamF := cameraPending_false c inv (by simp [hst])
    have hmetaF := metaPending_false c inv (by simp [hst])
    have hopen : c.streamOpen = false := by
      by_contra h
      rcases inv.streamStatus (by simpa using h) with h2 | h2 <;> simp_all
    have hu : ∀ t, t ≠ TimerTag.capturedToScan → c.pending t = false := by
      intro t ht
      by_contra hh2
      have := inv.timers t (by simpa using hh2)
      cases t <;> simp_all [timerOk]
    obtain ⟨hti, hcam2, hmeta2, hss, hds, hpc, hns, hcn, hcp, hrme, hcc, hhc, hdt⟩ := inv
    constructor <;>
      simp_all [fireTimer, isInterval, runCallback, rerenderFrom, cleanupMain, effectMain,
        cleanupFsa, effectFsa, timerOk]
  · exact inv_fire_not_pending c inv _ hp

lemma inv_fire_scanText (c : Config) (inv : Inv c) : Inv (fireTimer .scanText c) := by
  by_cases hp : c.pending .scanText = true
  · have hst : c.status = .SCANNING := inv.timers _ hp
    have hpop := inv.popupClosed (by tauto)
    have hh := inv.hiddenCleared hpop
    have hcamF := cameraPending_false c inv (by simp [hst])
    have hmetaF := metaPending_false c inv (by simp [hst])
    have hopen : c.streamOpen = false := by
      by_contra h
      rcases inv.streamStatus (by simpa using h) with h2 | h2 <;> simp_all
    obtain ⟨hti, hcam2, hmeta2, hss, hds, hpc, hns, hcn, hcp, hrme, hcc, hhc, hdt⟩ := inv
    constructor <;>
      simp_all [fireTimer, isInterval, runCallback, rerenderFrom, timerOk]
  · exact inv_fire_not_pending c inv _ hp

lemma inv_fire_scanConf (c : Config) (inv : Inv c) : Inv (fireTimer .scanConf c) := by
  by_cases hp : c.pending .scanConf = true
  · have hst : c.status = .SCANNING := inv.timers _ hp
    have hpop := inv.popupClosed (by tauto)
    have hh := inv.hiddenCleared hpop
    have hcamF := cameraPending_false c inv (by simp [hst])
    have hmetaF := metaPending_false c inv (by simp [hst])
    have h99 := confStep_le c.matchConfidence
    have hopen : c.streamOpen = false := by
      by_contra h
      rcases inv.streamStatus (by simpa using h) with h2 | h2 <;> simp_all
    obtain ⟨hti, hcam2, hmeta2, hss, hds, hpc, hns, hcn, hcp, hrme, hcc, hhc, hdt⟩ := inv
    constructor <;>
      simp_all [fireTimer, isInterval, runCallback, rerenderFrom, timerOk]
  · exact inv_fire_not_pending c inv _ hp

set_option maxHeartbeats 4000000 in
lemma inv_fire_scanMain (c : Config) (inv : Inv c) : Inv (fireTimer .scanMain c) := by
  by_cases hp : c.pending .scanMain = true
  · have hst : c.status = .SCANNING := inv.timers _ hp
    have hpop := inv.popupClosed (by tauto)
    have hh := inv.hiddenCleared hpop
    have hcamF := cameraPending_false c inv (by simp [hst])
    have hmetaF := metaPending_false c inv (by simp [hst])
    have hopen : c.streamOpen = false := by
      by_contra h
      rcases inv.streamStatus (by simpa using h) with h2 | h2 <;> simp_all
    have hu : ∀ t, t ≠ TimerTag.scanText → t ≠ TimerTag.scanConf → t ≠ TimerTag.scanMain →
        c.pending t = false := by
      intro t h1 h2 h3
      by_contra hh2
      have := inv.timers t (by simpa using hh2)
      cases t <;> simp_all [timerOk]
    obtain ⟨hti, hcam2, hmeta2, hss, hds, hpc, hns, hcn, hcp, hrme, hcc, hhc, hdt⟩ := inv
    constructor <;>
      simp_all [fireTimer, isInterval, runCallback, rerenderFrom, cleanupMain, effectMain,
        cleanupFsa, effectFsa, timerOk]
  · exact inv_fire_not_pending c inv _ hp

set_option maxHeartbeats 1000000 in
lemma inv_fire_showPopup (c : Config) (inv : Inv c) :
    Inv (fireTimer .showPopupTimer c) := by
  by_cases hp : c.pending .showPopupTimer = true
  · have hst : c.status = .SCAN_PASSED := inv.timers _ hp
    have hcamF := cameraPending_false c inv (by simp [hst])
    have hmetaF := metaPending_false c inv (by simp [hst])
    have hopen : c.streamOpen = false := by
      by_contra h
      rcases inv.streamStatus (by simpa using h) with h2 | h2 <;> simp_all
    obtain ⟨hti, hcam2, hmeta2, hss, hds, hpc, hns, hcn, hcp, hrme, hcc, hhc, hdt⟩ := inv
    by_cases hpp : c.showFsaPopup = true
    · constructor <;>
        simp_all [fireTimer, isInterval, runCallback, rerenderFrom, cleanupFsa, effectFsa,
          timerOk]
    · constructor <;>
        simp_all [fireTimer, isInterval, runCallback, rerenderFrom, cleanupFsa, effectFsa,
          timerOk]
      intro a h1 h2
      have h3 := hti a h2
      cases a <;> simp_all
  · exact inv_fire_not_pending c inv _ hp

set_option maxHeartbeats 1000000 in
lemma inv_fire_hidePopup (c : Config) (inv : Inv c) :
    Inv (fireTimer .hidePopupTimer c) := by
  by_cases hp : c.pending .hidePopupTimer = true
  · have hst : c.status = .SCAN_PASSED := inv.timers _ hp
    have hcamF := cameraPending_false c inv (by simp [hst])
    have hmetaF := metaPending_false c inv (by simp [hst])
    have hopen : c.streamOpen = false := by
      by_contra h
      rcases inv.streamStatus (by simpa using h) with h2 | h2 <;> simp_all
    obtain ⟨hti, hcam2, hmeta2, hss, hds, hpc, hns, hcn, hcp, hrme, hcc, hhc, hdt⟩ := inv
    by_cases hpp : c.showFsaPopup = true
    · constructor <;>
        simp_all [fireTimer, isInterval, runCallback, rerenderFrom, cleanupFsa, effectFsa,
          timerOk]
      · intro a h1 h2 h3
        have h4 := hti a h3
        cases a <;> simp_all
      · exact ⟨0, by decide⟩
    · constructor <;>
        simp_all [fireTimer, isInterval, runCallback, rerenderFrom, cleanupFsa, effectFsa,
          timerOk]
  · exact inv_fire_not_pending c inv _ hp

set_option maxHeartbeats 1000000 in
lemma inv_fire_scanPassedMain (c : Config) (inv : Inv c) :
    Inv (fireTimer .scanPassedMain c) := by
  by_cases hp : c.pending .scanPassedMain = true
  · have hst : c.status = .SCAN_PASSED := inv.timers _ hp
    have hcamF := cameraPending_false c inv (by simp [hst])
    have hmetaF := metaPending_false c inv (by simp [hst])
    have hopen : c.streamOpen = false := by
      by_contra h
      rcases inv.streamStatus (by simpa using h) with h2 | h2 <;> simp_all
    have hu : ∀ t, t ≠ TimerTag.soundEkyc → t ≠ TimerTag.soundWorld →
        t ≠ TimerTag.soundName → t ≠ TimerTag.soundPep → t ≠ TimerTag.soundRisk →
        t ≠ TimerTag.showPopupTimer → t ≠ TimerTag.hidePopupTimer →
        t ≠ TimerTag.scanPassedMain → t ≠ TimerTag.typingTick →
        c.pending t = false := by
      intro t h1 h2 h3 h4 h5 h6 h7 h8 h9
      by_contra hh2
      have := inv.timers t (by simpa using hh2)
      cases t <;> simp_all [timerOk]
    obtain ⟨hti, hcam2, hmeta2, hss, hds, hpc, hns, hcn, hcp, hrme, hcc, hhc, hdt⟩ := inv
    constructor <;>
      simp_all [fireTimer, isInterval, runCallback, rerenderFrom, cleanupMain, effectMain,
        cleanupFsa, effectFsa, timerOk]
    intro a h1 h2 h3 h4 h5
    have h6 := hti a h5
    cases a <;> simp_all [isSoundTag]
  · exact inv_fire_not_pending c inv _ hp

set_option maxHeartbeats 1000000 in
lemma inv_fire_finalizingMain (c : Config) (inv : Inv c) :
    Inv (fireTimer .finalizingMain c) := by
  by_cases hp : c.pending .finalizingMain = true
  · have hst : c.status = .FINALIZING := inv.timers _ hp
    have hcamF := cameraPending_false c inv (by simp [hst])
    have hmetaF := metaPending_false c inv (by simp [hst])
    have hopen : c.streamOpen = false := by
      by_contra h
      rcases inv.streamStatus (by simpa using h) with h2 | h2 <;> simp_all
    have hu : ∀ t, t ≠ TimerTag.finalizingMain → t ≠ TimerTag.typingTick →
        c.pending t = false := by
      intro t h1 h2
      by_contra hh2
      have := inv.timers t (by simpa using hh2)
      cases t <;> simp_all [timerOk]
    obtain ⟨hti, hcam2, hmeta2, hss, hds, hpc, hns, hcn, hcp, hrme, hcc, hhc, hdt⟩ := inv
    constructor <;>
      simp_all [fireTimer, isInterval, runCallback, rerenderFrom, cleanupMain, effectMain,
        cleanupFsa, effectFsa, timerOk]
    intro a h1 h2
    have h3 := hti a h2
    cases a <;> simp_all
  · exact inv_fire_not_pending c inv _ hp

set_option maxHeartbeats 2000000 in
lemma inv_fire_countdownTick (c : Config) (inv : Inv c) :
    Inv (fireTimer .countdownTick c) := by
  by_cases hp : c.pending .countdownTick = true
  · obtain ⟨hst, hpos⟩ : c.status = .COUNTDOWN ∧ 0 < c.countdown := inv.timers _ hp
    have hcamF := cameraPending_false c inv (by simp [hst])
    have hmetaF := metaPending_false c inv (by simp [hst])
    have hopen : c.streamOpen = false := by
      by_contra h
      rcases inv.streamStatus (by simpa using h) with h2 | h2 <;> simp_all
    have hu : ∀ t, t ≠ TimerTag.countdownTick → t ≠ TimerTag.typingTick →
        c.pending t = false := by
      intro t h1 h2
      by_contra hh2
      have := inv.timers t (by simpa using hh2)
      cases t <;> simp_all [timerOk]
    have hne : ¬(c.countdown = c.countdown - 1) := by omega
    have hstep : fireTimer .countdownTick c =
        (if 0 < c.countdown - 1 then
          arm .countdownTick (cancelT .countdownTick
            { cancelT .countdownTick c with countdown := c.countdown - 1 })
        else
          arm .onboardedMain
            { cancelT .countdownTick
                { cancelT .countdownTick c with countdown := c.countdown - 1 } with
                status := .ONBOARDED }) := by
      by_cases hgt : (0 : Int) < c.countdown - 1
      · simp [fireTimer, hp, runCallback, isInterval, rerenderFrom, cleanupMain, effectMain,
          hst, hne, hpos, hgt]
      · simp [fireTimer, hp, runCallback, isInterval, rerenderFrom, cleanupMain, effectMain,
          hst, hne, hpos, hgt]
    obtain ⟨hti, hcam2, hmeta2, hss, hds, hpc, hns, hcn, hcp, hrme, hcc, hhc, hdt⟩ := inv
    rw [hstep]
    by_cases hgt : (0 : Int) < c.countdown - 1
    · rw [if_pos hgt]
      constructor <;> simp [hst, timerOk, hpos, hgt, hcamF, hmetaF, hopen]
      · intro sa h
        have h2 := hti sa
        cases sa <;> simp_all [timerOk]
      · omega
      · simp [hu]
      · exact hhc
      · exact hdt
    · rw [if_neg hgt]
      constructor <;> simp [hst, timerOk, hpos, hgt, hcamF, hmetaF, hopen]
      · intro sa h
        have h2 := hti sa
        cases sa <;> simp_all [timerOk]
      · omega
      · simp [hu]
      · exact hhc
      · exact hdt
  · exact inv_fire_not_pending c inv _ hp

set_option maxHeartbeats 1000000 in
lemma inv_fire_onboardedMain (c : Config) (inv : Inv c) :
    Inv (fireTimer .onboardedMain c) := by
  by_cases hp : c.pending .onboardedMain = true
  · have hst : c.status = .ONBOARDED := inv.timers _ hp
    have hcamF := cameraPending_false c inv (by simp [hst])
    have hmetaF := metaPending_false c inv (by simp [hst])
    have hopen : c.streamOpen = false := by
      by_contra h
      rcases inv.streamStatus (by simpa using h) with h2 | h2 <;> simp_all
    obtain ⟨hti, hcam2, hmeta2, hss, hds, hpc, hns, hcn, hcp, hrme, hcc, hhc, hdt⟩ := inv
    constructor <;>
      simp_all [fireTimer, isInterval, runCallback, rerenderFrom, cleanupMain, effectMain,
        cleanupFsa, effectFsa, timerOk]
    intro a h1 h2
    have h3 := hti a h2
    cases a <;> simp_all [timerOk]
  · exact inv_fire_not_pending c inv _ hp

set_option maxHeartbeats 1000000 in
lemma inv_fire_typingTick (c : Config) (inv : Inv c) :
    Inv (fireTimer .typingTick c) := by
  by_cases hp : c.pending .typingTick = true
  · have hpp : c.showFsaPopup = true := inv.timers _ hp
    have hstep : fireTimer .typingTick c =
        (if fullFsaText.length < c.fsaIndex + 1 then
          { cancelT .typingTick
              { c with displayedFsaText := fullFsaText.take c.fsaIndex
                       fsaIndex := c.fsaIndex + 1 } with
              isTyping := false }
        else
          { c with displayedFsaText := fullFsaText.take c.fsaIndex
                   fsaIndex := c.fsaIndex + 1 }) := by
      by_cases hlen : fullFsaText.length < c.fsaIndex + 1 <;>
        simp [fireTimer, hp, runCallback, isInterval, hlen]
    obtain ⟨hti, hcam2, hmeta2, hss, hds, hpc, hns, hcn, hcp, hrme, hcc, hhc, hdt⟩ := inv
    rw [hstep]
    by_cases hlen : fullFsaText.length < c.fsaIndex + 1
    · rw [if_pos hlen]
      refine ⟨?_, hcam2, hmeta2, hss, hds, hpc, hns, hcn, hcp, hrme, hcc, ?_, ?_⟩
      · intro sa hsa
        have h2 := hti sa
        cases sa <;> simp_all [timerOk]
      · simp [hpp]
      · exact ⟨c.fsaIndex, rfl⟩
    · rw [if_neg hlen]
      refine ⟨?_, hcam2, hmeta2, hss, hds, hpc, hns, hcn, hcp, hrme, hcc, ?_, ?_⟩
      · intro sa hsa
        have h2 := hti sa
        cases sa <;> simp_all [timerOk]
      · simp [hpp]
      · exact ⟨c.fsaIndex, rfl⟩
  · exact inv_fire_not_pending c inv _ hp

lemma inv_step (e : Event) (c : Config) (inv : Inv c) : Inv (step e c) := by
  cases e with
  | startClick => exact inv_step_startClick c inv
  | resetClick => exact inv_step_resetClick c inv
  | cameraGranted => exact inv_step_cameraGranted c inv
  | cameraDenied => exact inv_step_cameraDenied c inv
  | metadataLoaded => exact inv_step_metadataLoaded c inv
  | fire t =>
      show Inv (fireTimer t c)
      cases t with
      | detectRetry => exact inv_fire_detectRetry c inv
      | detectMain => exact inv_fire_detectMain c inv
      | detectLock => exact inv_fire_detectLock c inv
      | capturedToScan => exact inv_fire_capturedToScan c inv
      | scanText => exact inv_fire_scanText c inv
      | scanConf => exact inv_fire_scanConf c inv
      | scanMain => exact inv_fire_scanMain c inv
      | soundEkyc => exact inv_fire_sound c inv _ rfl
      | soundWorld => exact inv_fire_sound c inv _ rfl
      | soundName => exact inv_fire_sound c inv _ rfl
      | soundPep => exact inv_fire_sound c inv _ rfl
      | soundRisk => exact inv_fire_sound c inv _ rfl
      | showPopupTimer => exact inv_fire_showPopup c inv
      | hidePopupTimer => exact inv_fire_hidePopup c inv
      | scanPassedMain => exact inv_fire_scanPassedMain c inv
      | finalizingMain => exact inv_fire_finalizingMain c inv
      | countdownTick => exact inv_fire_countdownTick c inv
      | onboardedMain => exact inv_fire_onboardedMain c inv
      | typingTick => exact inv_fire_typingTick c inv

/-- Every reachable configuration satisfies the inductive invariant. -/
theorem reachable_inv {vw vh : ℚ} {c : Config} (h : Reachable vw vh c) : Inv c := by
  induction h with
  | init => exact inv_init vw vh
  | next e h ih => exact inv_step e _ ih

end FaceScanner

namespace FaceScanner

lemma reachable_runTrace (vw vh : ℚ) (es : List Event) (c : Config)
    (h : Reachable vw vh c) : Reachable vw vh (runTrace es c) := by
  induction es generalizing c with
  | nil => exact h
  | cons e es ih => exact ih _ (Reachable.next e h)

lemma reachable_demoDetecting : Reachable 640 480 demoDetecting :=
  reachable_runTrace 640 480 _ _ Reachable.init

lemma reachable_demoLockArmed : Reachable 640 480 demoLockArmed :=
  Reachable.next _ reachable_demoDetecting

lemma reachable_demoCaptured : Reachable 640 480 demoCaptured :=
  Reachable.next _ reachable_demoLockArmed

lemma reachable_demoScanning : Reachable 640 480 demoScanning :=
  Reachable.next _ reachable_demoCaptured

lemma reachable_demoScanPassed : Reachable 640 480 demoScanPassed :=
  Reachable.next _ reachable_demoScanning

lemma reachable_demoPartial : Reachable 640 480 demoPartial :=
  Reachable.next _ reachable_demoScanPassed

lemma reachable_demoPopupShown : Reachable 640 480 demoPopupShown :=
  Reachable.next _ reachable_demoScanPassed

lemma reachable_demoFinalizing : Reachable 640 480 demoFinalizing :=
  Reachable.next _ reachable_demoPartial

lemma reachable_demoError : Reachable 640 480 demoError :=
  reachable_runTrace 640 480 _ _ Reachable.init

end FaceScanner

namespace FaceScanner

lemma cleanupMain_errorMessage (old c : Config) :
    (cleanupMain old c).errorMessage = c.errorMessage := by
  cases h2 : old.status <;> simp [cleanupMain, h2] <;> split_ifs <;> simp

lemma cleanupMain_snapshot (old c : Config) :
    (cleanupMain old c).snapshot = c.snapshot := by
  cases h2 : old.status <;> simp [cleanupMain, h2] <;> split_ifs <;> simp

lemma cleanupMain_detectionBox (old c : Config) :
    (cleanupMain old c).detectionBox = c.detectionBox := by
  cases h2 : old.status <;> simp [cleanupMain, h2] <;> split_ifs <;> simp

lemma cleanupMain_status (old c : Config) :
    (cleanupMain old c).status = c.status := by
  cases h2 : old.status <;> simp [cleanupMain, h2] <;> split_ifs <;> simp

lemma cleanupMain_streamOpen (old c : Config) :
    (cleanupMain old c).streamOpen = c.streamOpen := by
  cases h2 : old.status <;> simp [cleanupMain, h2] <;> split_ifs <;> simp

lemma cleanupMain_showFsaPopup (old c : Config) :
    (cleanupMain old c).showFsaPopup = c.showFsaPopup := by
  cases h2 : old.status <;> simp [cleanupMain, h2] <;> split_ifs <;> simp

lemma cleanupMain_matchConfidence (old c : Config) :
    (cleanupMain old c).matchConfidence = c.matchConfidence := by
  cases h2 : old.status <;> simp [cleanupMain, h2] <;> split_ifs <;> simp

lemma effectMain_errorMessage (c : Config) :
    (effectMain c).errorMessage = c.errorMessage := by
  cases h2 : c.status <;> simp [effectMain, h2, detectFaceCall] <;> split_ifs <;> simp

lemma effectMain_snapshot (c : Config) :
    (effectMain c).snapshot = c.snapshot := by
  cases h2 : c.status <;> simp [effectMain, h2, detectFaceCall] <;> split_ifs <;> simp

lemma effectMain_detectionBox (c : Config) :
    (effectMain c).detectionBox = c.detectionBox := by
  cases h2 : c.status <;> simp [effectMain, h2, detectFaceCall] <;> split_ifs <;> simp

lemma effectMain_showFsaPopup (c : Config) :
    (effectMain c).showFsaPopup = c.showFsaPopup := by
  cases h2 : c.status <;> simp [effectMain, h2, detectFaceCall] <;> split_ifs <;> simp

lemma cleanupFsa_errorMessage (old c : Config) :
    (cleanupFsa old c).errorMessage = c.errorMessage := by
  unfold cleanupFsa
  split_ifs <;> simp

lemma effectFsa_errorMessage (c : Config) :
    (effectFsa c).errorMessage = c.errorMessage := by
  unfold effectFsa
  split_ifs <;> simp

lemma cleanupFsa_snapshot (old c : Config) :
    (cleanupFsa old c).snapshot = c.snapshot := by
  unfold cleanupFsa
  split_ifs <;> simp

lemma effectFsa_snapshot (c : Config) :
    (effectFsa c).snapshot = c.snapshot := by
  unfold effectFsa
  split_ifs <;> simp

lemma rerenderFrom_errorMessage (old c : Config) :
    (rerenderFrom old c).errorMessage = c.errorMessage := by
  unfold rerenderFrom
  dsimp only
  split_ifs <;>
    simp [cleanupFsa_errorMessage, effectFsa_errorMessage, effectMain_errorMessage,
      cleanupMain_errorMessage]

lemma rerenderFrom_snapshot (old c : Config) :
    (rerenderFrom old c).snapshot = c.snapshot := by
  unfold rerenderFrom
  dsimp only
  split_ifs <;>
    simp [cleanupFsa_snapshot, effectFsa_snapshot, effectMain_snapshot, cleanupMain_snapshot]

lemma runCallback_errorMessage (t : TimerTag) (c : Config) :
    (runCallback t c).errorMessage = c.errorMessage := by
  cases t <;>
    simp [runCallback, captureSnapshotC, stopCameraC, rerenderFrom_errorMessage] <;>
    split_ifs <;> simp [rerenderFrom_errorMessage]

lemma fireTimer_errorMessage (t : TimerTag) (c : Config) :
    (fireTimer t c).errorMessage = c.errorMessage := by
  unfold fireTimer
  split_ifs <;> simp [runCallback_errorMessage]

end FaceScanner

namespace FaceScanner

/-- C2 (counterexample): the claimed equivalence fails in the direction
from status to stream: immediately after the Start click the status is
INITIALIZING while the getUserMedia promise is still outstanding, so the
camera stream is not yet open — a reachable configuration with status in
the set but the stream closed. -/
theorem c2_counterexample :
    Reachable 640 480 (step .startClick (initConfig 640 480)) ∧
    (step .startClick (initConfig 640 480)).status = .INITIALIZING ∧
    (step .startClick (initConfig 640 480)).streamOpen = false := by
  refine ⟨Reachable.next .startClick Reachable.init, ?_, ?_⟩ <;> decide

/-- C2 (amended): in every reachable configuration, if the camera stream
is open then the status is INITIALIZING or DETECTING, and in DETECTING
the stream is always open; during INITIALIZING the stream may still be
closed while acquisition is pending, and it is released on every exit
from these states. -/
theorem c2_camera_stream_invariant (vw vh : ℚ) (c : Config)
    (h : Reachable vw vh c) :
    (c.streamOpen = true → c.status = .INITIALIZING ∨ c.status = .DETECTING) ∧
    (c.status = .DETECTING → c.streamOpen = true) := by
  have inv := reachable_inv h
  exact ⟨inv.streamStatus, inv.detectingStream⟩

/-- Witness for c2_camera_stream_invariant at the concrete DETECTING
configuration of the demo run. -/
theorem c2_camera_stream_invariant_witness :
    (demoDetecting.streamOpen = true →
      demoDetecting.status = .INITIALIZING ∨ demoDetecting.status = .DETECTING) ∧
    (demoDetecting.status = .DETECTING → demoDetecting.streamOpen = true) :=
  c2_camera_stream_invariant 640 480 demoDetecting reachable_demoDetecting

/-- C5: the mock detection callback stores a DetectionRegion whose width
and height are exactly the configured fractions of the reported frame
dimensions (0.3 and 0.4 of width and height in the main variant, 0.25
and 0.25 in the part_003 variant) and which is centered in the frame. -/
theorem c5_detection_region (c : Config) (hp : c.pending .detectMain = true)
    (ha : c.detectionActive = true) :
    (fireTimer .detectMain c).detectionBox =
      some (detectionBoxFor c.videoWidth c.videoHeight) ∧
    (∀ w h : ℚ, (detectionBoxFor w h).width = w * 0.3 ∧
      (detectionBoxFor w h).height = h * 0.4 ∧
      (detectionBoxFor w h).x = (w - (detectionBoxFor w h).width) / 2 ∧
      (detectionBoxFor w h).y = (h - (detectionBoxFor w h).height) / 2) ∧
    (∀ w h : ℚ, (detectionBoxForAlt w h).width = w * 0.25 ∧
      (detectionBoxForAlt w h).height = h * 0.25 ∧
      (detectionBoxForAlt w h).x = (w - (detectionBoxForAlt w h).width) / 2 ∧
      (detectionBoxForAlt w h).y = (h - (detectionBoxForAlt w h).height) / 2) := by
  refine ⟨?_, ?_, ?_⟩
  · simp [fireTimer, hp, isInterval, runCallback, ha, rerenderFrom]
  · intro w h
    exact ⟨rfl, rfl, rfl, rfl⟩
  · intro w h
    exact ⟨rfl, rfl, rfl, rfl⟩

/-- Witness for c5_detection_region at the concrete DETECTING
configuration of the demo run (640 by 480 frame). -/
theorem c5_detection_region_witness :
    (fireTimer .detectMain demoDetecting).detectionBox =
      some (detectionBoxFor demoDetecting.videoWidth demoDetecting.videoHeight) :=
  (c5_detection_region demoDetecting (by decide) (by decide)).1

end FaceScanner

namespace FaceScanner

lemma captureSnapshotC_fields (c : Config) (hv : videoMounted c = true) :
    (captureSnapshotC c).snapshot = true ∧
    (captureSnapshotC c).status = .CAPTURED ∧
    (captureSnapshotC c).streamOpen = false := by
  unfold captureSnapshotC
  rw [if_pos hv]
  unfold rerenderFrom
  dsimp only
  by_cases h1 : c.status = ScannerStatus.CAPTURED
  · simp [h1, cleanupFsa, effectFsa]
  · simp [h1, cleanupFsa, effectFsa, effectMain, cleanupMain_status, cleanupMain_streamOpen,
      cleanupMain_snapshot, cleanupMain_showFsaPopup]

/-- C6: capture produces the horizontally mirrored frame — under the
translate and negative-scale canvas transform, the source point at
horizontal coordinate x is drawn at coordinate width minus x, so reading
the artifact at width minus x returns the source at x — and whenever
the video element is mounted, so the guard at the top of captureSnapshot
passes, captureSnapshot stores the artifact, transitions to CAPTURED,
and releases the camera stream. -/
theorem c6_capture_mirror :
    (∀ (w : ℚ) (frame : ℚ → ℚ → ℚ) (x y : ℚ),
      mirrorDraw w frame (w - x) y = frame x y) ∧
    (∀ c : Config, videoMounted c = true →
      (captureSnapshotC c).snapshot = true ∧
      (captureSnapshotC c).status = .CAPTURED ∧
      (captureSnapshotC c).streamOpen = false) := by
  constructor
  · intro w frame x y
    have h2 : w - (w - x) = x := by ring
    simp [mirrorDraw, h2]
  · exact captureSnapshotC_fields

/-- Witness for c6_capture_mirror at the demo DETECTING configuration
with the lock timer armed: there the video element is mounted, the
capture guard passes, and the capture stores the artifact, moves to
CAPTURED and closes the stream. -/
theorem c6_capture_mirror_witness :
    videoMounted demoLockArmed = true ∧
    (captureSnapshotC demoLockArmed).snapshot = true ∧
    (captureSnapshotC demoLockArmed).status = .CAPTURED ∧
    (captureSnapshotC demoLockArmed).streamOpen = false := by
  have h := c6_capture_mirror.2 demoLockArmed (by decide)
  exact ⟨by decide, h.1, h.2.1, h.2.2⟩

/-- C7: during SCANNING the confidence counter starts at 0 on phase
entry, each interval tick applies confStep which adds exactly 1 below
the ceiling and holds at 99, in every reachable SCANNING configuration
the value is at most 99, and the phase-end timer sets it to exactly 100
while transitioning to SCAN_PASSED. -/
theorem c7_confidence (vw vh : ℚ) :
    (∀ c : Config, c.status = .CAPTURED → c.pending .capturedToScan = true →
      (fireTimer .capturedToScan c).status = .SCANNING ∧
      (fireTimer .capturedToScan c).matchConfidence = 0) ∧
    (∀ c : Config, c.pending .scanConf = true →
      (fireTimer .scanConf c).matchConfidence = confStep c.matchConfidence) ∧
    (∀ p : Nat, p < 99 → confStep p = p + 1) ∧
    (∀ p : Nat, confStep p ≤ 99) ∧
    (∀ c : Config, Reachable vw vh c → c.status = .SCANNING → c.matchConfidence ≤ 99) ∧
    (∀ c : Config, c.pending .scanMain = true →
      (fireTimer .scanMain c).matchConfidence = 100 ∧
      (fireTimer .scanMain c).status = .SCAN_PASSED) := by
  refine ⟨?_, ?_, ?_, confStep_le, ?_, ?_⟩
  · intro c hs hp
    constructor <;>
      simp [fireTimer, hp, isInterval, runCallback, rerenderFrom, cleanupMain, effectMain,
        hs]
  · intro c hp
    simp [fireTimer, hp, isInterval, runCallback, rerenderFrom]
  · intro p hlt
    simp [confStep]
    omega
  · intro c h hs
    exact (reachable_inv h).confCeiling hs
  · intro c hp
    unfold fireTimer
    rw [if_pos hp]
    show ((rerenderFrom _ _).matchConfidence = 100 ∧ (rerenderFrom _ _).status = _)
    unfold rerenderFrom
    dsimp only
    by_cases h1 : c.status = ScannerStatus.SCAN_PASSED
    · simp [h1, isInterval, cleanupFsa, effectFsa, effectMain, clearSoundTimeoutsC]
    · simp [h1, isInterval, cleanupFsa, effectFsa, effectMain, cleanupMain_status,
        cleanupMain_matchConfidence, cleanupMain_showFsaPopup]

/-- Witness for c7_confidence at concrete configurations of the demo run. -/
theorem c7_confidence_witness :
    (fireTimer .capturedToScan demoCaptured).matchConfidence = 0 ∧
    (fireTimer .scanConf demoScanning).matchConfidence =
      confStep demoScanning.matchConfidence ∧
    confStep 50 = 51 ∧
    demoScanning.matchConfidence ≤ 99 ∧
    (fireTimer .scanMain demoScanning).matchConfidence = 100 := by
  have h := c7_confidence 640 480
  exact ⟨(h.1 demoCaptured (by decide) (by decide)).2,
    h.2.1 demoScanning (by decide),
    h.2.2.1 50 (by decide),
    h.2.2.2.2.1 demoScanning reachable_demoScanning (by decide),
    (h.2.2.2.2.2 demoScanning (by decide)).1⟩

end FaceScanner

namespace FaceScanner

lemma fire_scanText_eq (d : Config) (hp : d.pending .scanText = true) :
    fireTimer .scanText d =
      { d with scanTextIndex := nextTextIndex d.scanTextIndex
               scanningMessage := SCANNING_TEXTS.getD (nextTextIndex d.scanTextIndex) "" } := by
  simp [fireTimer, hp, isInterval, runCallback, rerenderFrom]

lemma scanText_iter (k : Nat) (d : Config) (hp : d.pending .scanText = true)
    (hidx : d.scanTextIndex < SCANNING_TEXTS.length)
    (hmsg : d.scanningMessage = SCANNING_TEXTS.getD d.scanTextIndex "") :
    ((fireTimer .scanText)^[k] d).scanTextIndex =
      (d.scanTextIndex + k) % SCANNING_TEXTS.length ∧
    ((fireTimer .scanText)^[k] d).scanningMessage =
      SCANNING_TEXTS.getD ((d.scanTextIndex + k) % SCANNING_TEXTS.length) "" := by
  have hL : SCANNING_TEXTS.length = 13 := rfl
  induction k generalizing d with
  | zero =>
      simp only [Function.iterate_zero, id_eq, Nat.add_zero]
      rw [Nat.mod_eq_of_lt hidx]
      exact ⟨rfl, hmsg⟩
  | succ n ih =>
      rw [Function.iterate_succ_apply, fire_scanText_eq d hp]
      have h2 := ih { d with scanTextIndex := nextTextIndex d.scanTextIndex
                             scanningMessage := SCANNING_TEXTS.getD (nextTextIndex d.scanTextIndex) "" }
        (by simpa using hp) (by simp [nextTextIndex, hL]; omega) (by rfl)
      simp only at h2
      rw [h2.1, h2.2]
      have harith : (nextTextIndex d.scanTextIndex + n) % SCANNING_TEXTS.length
          = (d.scanTextIndex + (n + 1)) % SCANNING_TEXTS.length := by
        rw [nextTextIndex, Nat.mod_add_mod]
        congr 1
        omega
      rw [harith]
      exact ⟨rfl, rfl⟩

/-- C8: during SCANNING, starting from index 0 on phase entry, after k
message-rotation ticks the displayed message is the flavor-text list
element at index k modulo the list length, for every k. -/
theorem c8_message_rotation (c : Config) (hs : c.status = .CAPTURED)
    (hp : c.pending .capturedToScan = true) (k : Nat) :
    ((fireTimer .scanText)^[k] (fireTimer .capturedToScan c)).scanningMessage =
      SCANNING_TEXTS.getD (k % SCANNING_TEXTS.length) "" ∧
    ((fireTimer .scanText)^[k] (fireTimer .capturedToScan c)).scanTextIndex =
      k % SCANNING_TEXTS.length := by
  have h0 : (fireTimer .capturedToScan c).scanTextIndex = 0 ∧
      (fireTimer .capturedToScan c).scanningMessage = SCANNING_TEXTS.getD 0 "" ∧
      (fireTimer .capturedToScan c).pending .scanText = true := by
    refine ⟨?_, ?_, ?_⟩ <;>
      simp [fireTimer, hp, isInterval, runCallback, rerenderFrom, cleanupMain, effectMain,
        hs]
  have h2 := scanText_iter k (fireTimer .capturedToScan c) h0.2.2
    (by rw [h0.1]; decide) (by rw [h0.1, h0.2.1])
  rw [h0.1] at h2
  rw [Nat.zero_add] at h2
  exact ⟨h2.2, h2.1⟩

/-- Witness for c8_message_rotation: 15 ticks into the demo scan the
message has wrapped around to index 2. -/
theorem c8_message_rotation_witness :
    ((fireTimer .scanText)^[15] (fireTimer .capturedToScan demoCaptured)).scanningMessage =
      SCANNING_TEXTS.getD (15 % SCANNING_TEXTS.length) "" :=
  (c8_message_rotation demoCaptured (by decide) (by decide) 15).1

end FaceScanner

namespace FaceScanner

lemma fire_finalizingMain_eq (d : Config) (hp : d.pending .finalizingMain = true)
    (hs : d.status = .FINALIZING) :
    fireTimer .finalizingMain d =
      arm .countdownTick (cancelT .finalizingMain
        { cancelT .finalizingMain d with countdown := 5, status := .COUNTDOWN }) := by
  simp [fireTimer, hp, isInterval, runCallback, rerenderFrom, cleanupMain, effectMain, hs]

lemma fire_countdownTick_eq (d : Config) (hp : d.pending .countdownTick = true)
    (hs : d.status = .COUNTDOWN) (hpos : 0 < d.countdown) :
    fireTimer .countdownTick d =
      (if 0 < d.countdown - 1 then
        arm .countdownTick (cancelT .countdownTick
          { cancelT .countdownTick d with countdown := d.countdown - 1 })
      else
        arm .onboardedMain
          { cancelT .countdownTick
              { cancelT .countdownTick d with countdown := d.countdown - 1 } with
              status := .ONBOARDED }) := by
  have hne : ¬(d.countdown = d.countdown - 1) := by omega
  by_cases hgt : (0 : Int) < d.countdown - 1
  · simp [fireTimer, hp, runCallback, isInterval, rerenderFrom, cleanupMain, effectMain,
      hs, hne, hpos, hgt]
  · simp [fireTimer, hp, runCallback, isInterval, rerenderFrom, cleanupMain, effectMain,
      hs, hne, hpos, hgt]

lemma countdown_iter (k : Nat) (d : Config) (hs : d.status = .COUNTDOWN)
    (hp : d.pending .countdownTick = true) (hk : (k : Int) < d.countdown) :
    ((fireTimer .countdownTick)^[k] d).status = .COUNTDOWN ∧
    ((fireTimer .countdownTick)^[k] d).countdown = d.countdown - k ∧
    ((fireTimer .countdownTick)^[k] d).pending .countdownTick = true := by
  induction k generalizing d with
  | zero => simp [hs, hp]
  | succ n ih =>
      have hk2 : ((n : Int) + 1) < d.countdown := by exact_mod_cast hk
      have hpos : 0 < d.countdown := by omega
      have hgt : (0 : Int) < d.countdown - 1 := by omega
      rw [Function.iterate_succ_apply, fire_countdownTick_eq d hp hs hpos, if_pos hgt]
      have h3 := ih (arm .countdownTick (cancelT .countdownTick
          { cancelT .countdownTick d with countdown := d.countdown - 1 }))
        (by simp [hs]) (by simp) (by simp; omega)
      simp only at h3
      refine ⟨h3.1, ?_, h3.2.2⟩
      rw [h3.2.1]
      simp only [arm_countdown, cancelT_countdown]
      push_cast
      ring

/-- C4: entering COUNTDOWN through the FINALIZING timer sets the counter
to 5; each of the first four one-second ticks decrements the counter by
exactly 1 and stays in COUNTDOWN; the fifth tick reaches 0 and the
effect transitions to ONBOARDED; and in every reachable configuration
the counter is never negative. -/
theorem c4_countdown (vw vh : ℚ) (c : Config) (_hr : Reachable vw vh c)
    (hs : c.status = .FINALIZING) (hp : c.pending .finalizingMain = true) :
    ((fireTimer .finalizingMain c).status = .COUNTDOWN ∧
     (fireTimer .finalizingMain c).countdown = 5) ∧
    (∀ k : Nat, k < 5 →
      ((fireTimer .countdownTick)^[k] (fireTimer .finalizingMain c)).status = .COUNTDOWN ∧
      ((fireTimer .countdownTick)^[k] (fireTimer .finalizingMain c)).countdown
        = 5 - (k : Int)) ∧
    ((fireTimer .countdownTick)^[5] (fireTimer .finalizingMain c)).status = .ONBOARDED ∧
    ((fireTimer .countdownTick)^[5] (fireTimer .finalizingMain c)).countdown = 0 ∧
    (∀ d : Config, Reachable vw vh d → 0 ≤ d.countdown) := by
  rw [fire_finalizingMain_eq c hp hs]
  have hst0 : (arm .countdownTick (cancelT .finalizingMain
      { cancelT .finalizingMain c with countdown := 5, status := .COUNTDOWN })).status
      = ScannerStatus.COUNTDOWN := by simp
  have hcd0 : (arm .countdownTick (cancelT .finalizingMain
      { cancelT .finalizingMain c with countdown := 5, status := .COUNTDOWN })).countdown
      = (5 : Int) := by simp
  have hp0 : (arm .countdownTick (cancelT .finalizingMain
      { cancelT .finalizingMain c with countdown := 5, status := .COUNTDOWN })).pending
      .countdownTick = true := by simp
  refine ⟨⟨hst0, hcd0⟩, ?_, ?_, ?_, ?_⟩
  · intro k hk
    have h4 := countdown_iter k _ hst0 hp0 (by rw [hcd0]; exact_mod_cast hk)
    rw [hcd0] at h4
    exact ⟨h4.1, h4.2.1⟩
  · have h4 := countdown_iter 4 _ hst0 hp0 (by rw [hcd0]; norm_num)
    rw [hcd0] at h4
    have h5 := fire_countdownTick_eq _ h4.2.2 h4.1 (by rw [h4.2.1]; norm_num)
    rw [show (5 : Nat) = 4 + 1 from rfl, Function.iterate_succ_apply']
    rw [h5, if_neg (by rw [h4.2.1]; norm_num)]
    rfl
  · have h4 := countdown_iter 4 _ hst0 hp0 (by rw [hcd0]; norm_num)
    rw [hcd0] at h4
    have h5 := fire_countdownTick_eq _ h4.2.2 h4.1 (by rw [h4.2.1]; norm_num)
    rw [show (5 : Nat) = 4 + 1 from rfl, Function.iterate_succ_apply']
    rw [h5, if_neg (by rw [h4.2.1]; norm_num)]
    simp only [arm_countdown, cancelT_countdown]
    rw [h4.2.1]
    norm_num
  · intro d hd
    exact (reachable_inv hd).countdownNonneg

/-- Witness for c4_countdown at the concrete FINALIZING configuration of
the demo run. -/
theorem c4_countdown_witness :
    (fireTimer .finalizingMain demoFinalizing).countdown = 5 ∧
    ((fireTimer .countdownTick)^[5] (fireTimer .finalizingMain demoFinalizing)).status
      = .ONBOARDED := by
  have h := c4_countdown 640 480 demoFinalizing reachable_demoFinalizing
    (by decide) (by decide)
  exact ⟨h.1.2, h.2.2.1⟩

end FaceScanner

namespace FaceScanner

/-- C3: if reset is called while the status is SCAN_PASSED — after any
number of the armed choreography timers have already fired — then none
of the reveal, sound, popup or phase-transition timers of that phase
remains armed afterwards, and firing any of them is a no-op, so none of
them ever mutates the state. -/
theorem c3_scan_passed_reset (c : Config) (hs : c.status = .SCAN_PASSED) (t : TimerTag)
    (ht : t = .soundEkyc ∨ t = .soundWorld ∨ t = .soundName ∨ t = .soundPep ∨
      t = .soundRisk ∨ t = .showPopupTimer ∨ t = .hidePopupTimer ∨ t = .scanPassedMain) :
    (handleResetC c).pending t = false ∧
    fireTimer t (handleResetC c) = handleResetC c := by
  have hpend : (handleResetC c).pending t = false := by
    by_cases hpp : c.showFsaPopup = true <;>
      rcases ht with h | h | h | h | h | h | h | h <;> subst h <;>
        simp [handleResetC, rerenderFrom, cleanupMain, effectMain, cleanupFsa, effectFsa,
          effectMain_showFsaPopup, cleanupMain_showFsaPopup, hs, hpp, isSoundTag]
  refine ⟨hpend, ?_⟩
  unfold fireTimer
  rw [if_neg (by simp [hpend])]

/-- Witness for c3_scan_passed_reset: the demo run partway through
SCAN_PASSED (the first reveal timer has fired), resetting then firing
the watchlist-badge reveal timer. -/
theorem c3_scan_passed_reset_witness :
    (handleResetC demoPartial).pending .soundWorld = false ∧
    fireTimer .soundWorld (handleResetC demoPartial) = handleResetC demoPartial :=
  c3_scan_passed_reset demoPartial (by decide) .soundWorld (by tauto)

end FaceScanner

namespace FaceScanner

lemma effectFsa_of_hidden (c : Config) (h : c.showFsaPopup = false) :
    effectFsa c = c := by
  simp [effectFsa, h]

lemma effectMain_of_idleStatus (c : Config) (h : c.status = .IDLE) :
    effectMain c = c := by
  simp [effectMain, h]

lemma cleanupFsa_showFsaPopup (old c : Config) :
    (cleanupFsa old c).showFsaPopup = c.showFsaPopup := by
  unfold cleanupFsa
  split_ifs <;> rfl

lemma clearSounds_pending_le (c : Config) (t : TimerTag)
    (h : (clearSoundTimeoutsC c).pending t = true) : c.pending t = true := by
  by_cases hs : isSoundTag t = true <;> simp_all

lemma cleanupFsa_pending_le (old c : Config) (t : TimerTag)
    (h : (cleanupFsa old c).pending t = true) : c.pending t = true := by
  unfold cleanupFsa at h
  by_cases ht : t = TimerTag.typingTick <;> split_ifs at h <;> simp_all

lemma cleanupMain_pending_le (old c : Config) (t : TimerTag)
    (h : (cleanupMain old c).pending t = true) : c.pending t = true := by
  cases hs : old.status <;> simp [cleanupMain, hs] at h <;>
    (try split_ifs at h) <;> simp_all

/-- handleReset only cancels timers, so any timer armed after the reset
was already armed before it. -/
lemma handleResetC_pending_mono (c : Config) (t : TimerTag)
    (ht : (handleResetC c).pending t = true) : c.pending t = true := by
  unfold handleResetC rerenderFrom at ht
  dsimp only at ht
  split_ifs at ht with h1 h2 h3
  · exact clearSounds_pending_le c t ht
  · rw [effectFsa_of_hidden _ (by simp [cleanupFsa_showFsaPopup])] at ht
    have ht2 := cleanupFsa_pending_le c _ t ht
    exact clearSounds_pending_le c t ht2
  · rw [effectMain_of_idleStatus _ (by simp [cleanupMain_status])] at ht
    have ht2 := cleanupMain_pending_le c _ t ht
    exact clearSounds_pending_le c t ht2
  · rw [effectMain_of_idleStatus _ (by simp [cleanupMain_status])] at ht
    rw [effectFsa_of_hidden _
      (by simp [cleanupFsa_showFsaPopup, cleanupMain_showFsaPopup,
        effectMain_showFsaPopup])] at ht
    have ht2 := cleanupFsa_pending_le c _ t ht
    have ht3 := cleanupMain_pending_le c _ t ht2
    exact clearSounds_pending_le c t ht3

lemma handleResetC_pending_typing (c : Config) (hpp : c.showFsaPopup = true) :
    (handleResetC c).pending .typingTick = false := by
  unfold handleResetC rerenderFrom
  dsimp only
  split_ifs with h1 h2 h3
  · simp_all
  · rw [effectFsa_of_hidden _ (by simp [cleanupFsa_showFsaPopup])]
    simp [cleanupFsa, hpp]
  · simp_all [cleanupMain_showFsaPopup, effectMain_showFsaPopup]
  · rw [effectFsa_of_hidden _
      (by simp [cleanupFsa_showFsaPopup, cleanupMain_showFsaPopup,
        effectMain_showFsaPopup])]
    simp [cleanupFsa, hpp]

/-- The only timers that can survive a reset from a reachable
configuration are the three detection timers: every other tag is
cancelled either by the sound-timeout sweep of handleReset itself or by
the effect cleanup of the state being exited. -/
lemma handleResetC_pending_subset (c : Config) (inv : Inv c) (t : TimerTag)
    (ht : (handleResetC c).pending t = true) :
    t = TimerTag.detectRetry ∨ t = TimerTag.detectMain ∨ t = TimerTag.detectLock := by
  have hct : c.pending t = true := handleResetC_pending_mono c t ht
  have hok := inv.timers t hct
  cases t with
  | detectRetry => exact Or.inl rfl
  | detectMain => exact Or.inr (Or.inl rfl)
  | detectLock => exact Or.inr (Or.inr rfl)
  | capturedToScan =>
      exfalso
      have hst : c.status = .CAPTURED := hok
      by_cases hpp : c.showFsaPopup = true <;>
        simp [handleResetC, rerenderFrom, cleanupMain, effectMain, cleanupFsa, effectFsa,
          cleanupMain_showFsaPopup, effectMain_showFsaPopup, hst, hpp, isSoundTag] at ht
  | scanText =>
      exfalso
      have hst : c.status = .SCANNING := hok
      by_cases hpp : c.showFsaPopup = true <;>
        simp [handleResetC, rerenderFrom, cleanupMain, effectMain, cleanupFsa, effectFsa,
          cleanupMain_showFsaPopup, effectMain_showFsaPopup, hst, hpp, isSoundTag] at ht
  | scanConf =>
      exfalso
      have hst : c.status = .SCANNING := hok
      by_cases hpp : c.showFsaPopup = true <;>
        simp [handleResetC, rerenderFrom, cleanupMain, effectMain, cleanupFsa, effectFsa,
          cleanupMain_showFsaPopup, effectMain_showFsaPopup, hst, hpp, isSoundTag] at ht
  | scanMain =>
      exfalso
      have hst : c.status = .SCANNING := hok
      by_cases hpp : c.showFsaPopup = true <;>
        simp [handleResetC, rerenderFrom, cleanupMain, effectMain, cleanupFsa, effectFsa,
          cleanupMain_showFsaPopup, effectMain_showFsaPopup, hst, hpp, isSoundTag] at ht
  | soundEkyc =>
      exfalso
      have hst : c.status = .SCAN_PASSED := hok
      by_cases hpp : c.showFsaPopup = true <;>
        simp [handleResetC, rerenderFrom, cleanupMain, effectMain, cleanupFsa, effectFsa,
          cleanupMain_showFsaPopup, effectMain_showFsaPopup, hst, hpp, isSoundTag] at ht
  | soundWorld =>
      exfalso
      have hst : c.status = .SCAN_PASSED := hok
      by_cases hpp : c.showFsaPopup = true <;>
        simp [handleResetC, rerenderFrom, cleanupMain, effectMain, cleanupFsa, effectFsa,
          cleanupMain_showFsaPopup, effectMain_showFsaPopup, hst, hpp, isSoundTag] at ht
  | soundName =>
      exfalso
      have hst : c.status = .SCAN_PASSED := hok
      by_cases hpp : c.showFsaPopup = true <;>
        simp [handleResetC, rerenderFrom, cleanupMain, effectMain, cleanupFsa, effectFsa,
          cleanupMain_showFsaPopup, effectMain_showFsaPopup, hst, hpp, isSoundTag] at ht
  | soundPep =>
      exfalso
      have hst : c.status = .SCAN_PASSED := hok
      by_cases hpp : c.showFsaPopup = true <;>
        simp [handleResetC, rerenderFrom, cleanupMain, effectMain, cleanupFsa, effectFsa,
          cleanupMain_showFsaPopup, effectMain_showFsaPopup, hst, hpp, isSoundTag] at ht
  | soundRisk =>
      exfalso
      have hst : c.status = .SCAN_PASSED := hok
      by_cases hpp : c.showFsaPopup = true <;>
        simp [handleResetC, rerenderFrom, cleanupMain, effectMain, cleanupFsa, effectFsa,
          cleanupMain_showFsaPopup, effectMain_showFsaPopup, hst, hpp, isSoundTag] at ht
  | showPopupTimer =>
      exfalso
      have hst : c.status = .SCAN_PASSED := hok
      by_cases hpp : c.showFsaPopup = true <;>
        simp [handleResetC, rerenderFrom, cleanupMain, effectMain, cleanupFsa, effectFsa,
          cleanupMain_showFsaPopup, effectMain_showFsaPopup, hst, hpp, isSoundTag] at ht
  | hidePopupTimer =>
      exfalso
      have hst : c.status = .SCAN_PASSED := hok
      by_cases hpp : c.showFsaPopup = true <;>
        simp [handleResetC, rerenderFrom, cleanupMain, effectMain, cleanupFsa, effectFsa,
          cleanupMain_showFsaPopup, effectMain_showFsaPopup, hst, hpp, isSoundTag] at ht
  | scanPassedMain =>
      exfalso
      have hst : c.status = .SCAN_PASSED := hok
      by_cases hpp : c.showFsaPopup = true <;>
        simp [handleResetC, rerenderFrom, cleanupMain, effectMain, cleanupFsa, effectFsa,
          cleanupMain_showFsaPopup, effectMain_showFsaPopup, hst, hpp, isSoundTag] at ht
  | finalizingMain =>
      exfalso
      have hst : c.status = .FINALIZING := hok
      by_cases hpp : c.showFsaPopup = true <;>
        simp [handleResetC, rerenderFrom, cleanupMain, effectMain, cleanupFsa, effectFsa,
          cleanupMain_showFsaPopup, effectMain_showFsaPopup, hst, hpp, isSoundTag] at ht
  | countdownTick =>
      exfalso
      have hst : c.status = .COUNTDOWN := hok.1
      have hcd : 0 < c.countdown := hok.2
      by_cases hpp : c.showFsaPopup = true <;>
        simp [handleResetC, rerenderFrom, cleanupMain, effectMain, cleanupFsa, effectFsa,
          cleanupMain_showFsaPopup, effectMain_showFsaPopup, hst, hcd, hpp, isSoundTag] at ht
  | onboardedMain =>
      exfalso
      have hst : c.status = .ONBOARDED := hok
      by_cases hpp : c.showFsaPopup = true <;>
        simp [handleResetC, rerenderFrom, cleanupMain, effectMain, cleanupFsa, effectFsa,
          cleanupMain_showFsaPopup, effectMain_showFsaPopup, hst, hpp, isSoundTag] at ht
  | typingTick =>
      exact absurd ht (by simp [handleResetC_pending_typing c hok])

/-- If the detection retry or mock-detection timer survives a reset,
the exited state was DETECTING, so its effect cleanup has lowered the
detectionActive flag. -/
lemma handleResetC_detect_inactive (c : Config) (inv : Inv c)
    (h : (handleResetC c).pending .detectRetry = true ∨
      (handleResetC c).pending .detectMain = true) :
    (handleResetC c).detectionActive = false := by
  have hst : c.status = .DETECTING := by
    rcases h with h | h
    · exact (inv.timers _ (handleResetC_pending_mono c _ h)).1
    · exact (inv.timers _ (handleResetC_pending_mono c _ h)).1
  have hpop : c.showFsaPopup = false := inv.popupClosed (by tauto)
  simp [handleResetC, rerenderFrom, cleanupMain, effectMain, cleanupFsa, effectFsa,
    cleanupMain_showFsaPopup, effectMain_showFsaPopup, hst, hpop]

/-- handleReset clears the state hooks, returns to IDLE and leaves the
stream flag untouched, from an arbitrary configuration. -/
lemma handleResetC_state_fields (c : Config) :
    (handleResetC c).status = .IDLE ∧
    (handleResetC c).snapshot = false ∧
    (handleResetC c).errorMessage = none ∧
    (handleResetC c).detectionBox = none ∧
    (handleResetC c).showFsaPopup = false ∧
    (handleResetC c).matchConfidence = 0 ∧
    (handleResetC c).streamOpen = c.streamOpen := by
  unfold handleResetC rerenderFrom
  dsimp only
  split_ifs <;>
    refine ⟨?_, ?_, ?_, ?_, ?_, ?_, ?_⟩ <;>
      simp_all [cleanupFsa, effectFsa, effectMain, cleanupMain_status, cleanupMain_snapshot,
        cleanupMain_errorMessage, cleanupMain_detectionBox, cleanupMain_showFsaPopup,
        cleanupMain_matchConfidence, cleanupMain_streamOpen]

/-- A post-reset configuration stays quiescent under any timer expiry:
the detection callbacks are disabled by the lowered detectionActive
flag, and the capture-lock callback no-ops because the IDLE screen does
not mount the video element. -/
lemma postResetQuiet_fire (s : Bool) (t : TimerTag) (d : Config)
    (hq : postResetQuiet s d) : postResetQuiet s (fireTimer t d) := by
  obtain ⟨h1, h2, h3, h4, h5, h6, h7, h8, h9⟩ := hq
  by_cases hp : d.pending t = true
  · rcases h8 t hp with ht | ht | ht <;> subst ht
    · have hact : d.detectionActive = false := h9 (Or.inl hp)
      have heq : fireTimer .detectRetry d = cancelT .detectRetry d := by
        simp [fireTimer, hp, isInterval, runCallback, hact]
      rw [heq]
      refine ⟨h1, h2, h3, h4, h5, h6, h7, ?_, ?_⟩
      · intro t2 ht2
        by_cases he : t2 = TimerTag.detectRetry
        · exact Or.inl he
        · exact h8 t2 (by simpa [he] using ht2)
      · intro h0
        simpa using hact
    · have hact : d.detectionActive = false := h9 (Or.inr hp)
      have heq : fireTimer .detectMain d = cancelT .detectMain d := by
        simp [fireTimer, hp, isInterval, runCallback, hact]
      rw [heq]
      refine ⟨h1, h2, h3, h4, h5, h6, h7, ?_, ?_⟩
      · intro t2 ht2
        by_cases he : t2 = TimerTag.detectMain
        · exact Or.inr (Or.inl he)
        · exact h8 t2 (by simpa [he] using ht2)
      · intro h0
        simpa using hact
    · have heq : fireTimer .detectLock d = cancelT .detectLock d := by
        simp [fireTimer, hp, isInterval, runCallback, captureSnapshotC, videoMounted, h1]
      rw [heq]
      refine ⟨h1, h2, h3, h4, h5, h6, h7, ?_, ?_⟩
      · intro t2 ht2
        by_cases he : t2 = TimerTag.detectLock
        · exact Or.inr (Or.inr he)
        · exact h8 t2 (by simpa [he] using ht2)
      · intro h0
        have h0b : d.pending TimerTag.detectRetry = true ∨
            d.pending TimerTag.detectMain = true := by simpa using h0
        simpa using h9 h0b
  · rw [show fireTimer t d = d from by simp [fireTimer, hp]]
    exact ⟨h1, h2, h3, h4, h5, h6, h7, h8, h9⟩

lemma postResetQuiet_runTrace (s : Bool) (ts : List TimerTag) (d : Config)
    (hq : postResetQuiet s d) :
    postResetQuiet s (runTrace (ts.map Event.fire) d) := by
  induction ts generalizing d with
  | nil => exact hq
  | cons t rest ih =>
      have h1 : runTrace ((t :: rest).map Event.fire) d =
          runTrace (rest.map Event.fire) (fireTimer t d) := rfl
      rw [h1]
      exact ih _ (postResetQuiet_fire s t d hq)

/-- From any reachable configuration, the reset result is quiescent. -/
lemma handleResetC_quiet (vw vh : ℚ) (c : Config) (h : Reachable vw vh c) :
    postResetQuiet c.streamOpen (handleResetC c) := by
  have inv := reachable_inv h
  obtain ⟨hst, hsn, her, hbx, hpp2, hmc, hso⟩ := handleResetC_state_fields c
  exact ⟨hst, hsn, her, hbx, hpp2, hmc, hso,
    fun t ht => handleResetC_pending_subset c inv t ht,
    fun h0 => handleResetC_detect_inactive c inv h0⟩

/-- C1 (counterexample): handleReset does not release a held camera
stream — resetting from the reachable DETECTING configuration returns to
IDLE with the stream still open — and it does not cancel all pending
timers: after resetting from the reachable configuration in which the
1200 ms capture-lock timeout is armed, that timeout is still armed. -/
theorem c1_reset_counterexample :
    Reachable 640 480 demoDetecting ∧
    demoDetecting.streamOpen = true ∧
    (handleResetC demoDetecting).status = .IDLE ∧
    (handleResetC demoDetecting).streamOpen = true ∧
    Reachable 640 480 demoLockArmed ∧
    (handleResetC demoLockArmed).status = .IDLE ∧
    (handleResetC demoLockArmed).pending .detectLock = true := by
  refine ⟨reachable_demoDetecting, ?_, ?_, ?_, reachable_demoLockArmed, ?_, ?_⟩ <;>
    decide

/-- C1 (amended): from every reachable configuration, handleReset clears
the snapshot, the error record and the detection box, hides the popup,
zeroes the confidence and returns to IDLE, but leaves the camera stream
flag exactly as it was (it never calls stopCamera) and can leave the
detection timers armed.  Nevertheless no late-firing timer callback ever
mutates a state hook: after any sequence of timer expirations all the
reset values persist, because the surviving timers can only be the
detection ones, whose retry and mock-detection callbacks are disabled by
the lowered detectionActive flag and whose capture-lock callback no-ops
on the video element the IDLE screen does not mount.  From the screens
that actually offer the reset button (SUCCESS, ERROR, WELCOME) the
stream is already closed and no timer at all survives the reset. -/
theorem c1_reset_amended (vw vh : ℚ) (c : Config) (h : Reachable vw vh c) :
    (handleResetC c).status = .IDLE ∧
    (handleResetC c).snapshot = false ∧
    (handleResetC c).errorMessage = none ∧
    (handleResetC c).detectionBox = none ∧
    (handleResetC c).showFsaPopup = false ∧
    (handleResetC c).matchConfidence = 0 ∧
    (handleResetC c).streamOpen = c.streamOpen ∧
    (∀ ts : List TimerTag,
      (runTrace (ts.map Event.fire) (handleResetC c)).status = .IDLE ∧
      (runTrace (ts.map Event.fire) (handleResetC c)).snapshot = false ∧
      (runTrace (ts.map Event.fire) (handleResetC c)).errorMessage = none ∧
      (runTrace (ts.map Event.fire) (handleResetC c)).detectionBox = none ∧
      (runTrace (ts.map Event.fire) (handleResetC c)).showFsaPopup = false ∧
      (runTrace (ts.map Event.fire) (handleResetC c)).matchConfidence = 0 ∧
      (runTrace (ts.map Event.fire) (handleResetC c)).streamOpen = c.streamOpen) ∧
    ((c.status = .SUCCESS ∨ c.status = .ERROR ∨ c.status = .WELCOME) →
      c.streamOpen = false ∧ ∀ t, (handleResetC c).pending t = false) := by
  have inv := reachable_inv h
  obtain ⟨hst, hsn, her, hbx, hpp2, hmc, hso, hsub, hact⟩ := handleResetC_quiet vw vh c h
  refine ⟨hst, hsn, her, hbx, hpp2, hmc, hso, ?_, ?_⟩
  · intro ts
    have hq2 := postResetQuiet_runTrace c.streamOpen ts (handleResetC c)
      ⟨hst, hsn, her, hbx, hpp2, hmc, hso, hsub, hact⟩
    exact ⟨hq2.1, hq2.2.1, hq2.2.2.1, hq2.2.2.2.1, hq2.2.2.2.2.1, hq2.2.2.2.2.2.1,
      hq2.2.2.2.2.2.2.1⟩
  · intro hs
    have hopen : c.streamOpen = false := by
      by_contra h2
      rcases inv.streamStatus (by simpa using h2) with h3 | h3 <;>
        rcases hs with h1 | h1 | h1 <;> simp_all
    refine ⟨hopen, ?_⟩
    intro t
    by_contra hcon
    have ht : (handleResetC c).pending t = true := by simpa using hcon
    have h1 := handleResetC_pending_subset c (reachable_inv h) t ht
    have h2 := inv.timers t (handleResetC_pending_mono c t ht)
    rcases h1 with h1 | h1 | h1 <;> subst h1 <;>
      rcases hs with h3 | h3 | h3 <;> simp_all [timerOk]

/-- Witness for c1_reset_amended at the reachable ERROR configuration of
the denied-camera run, instantiating the timer-trace clause at the
one-element trace that fires the capture-lock tag. -/
theorem c1_reset_amended_witness :
    (handleResetC demoError).status = .IDLE ∧
    (handleResetC demoError).errorMessage = none ∧
    (runTrace ([TimerTag.detectLock].map Event.fire) (handleResetC demoError)).status =
      .IDLE ∧
    (handleResetC demoError).streamOpen = demoError.streamOpen ∧
    (∀ t, (handleResetC demoError).pending t = false) := by
  have h := c1_reset_amended 640 480 demoError reachable_demoError
  exact ⟨h.1, h.2.2.1, (h.2.2.2.2.2.2.2.1 [TimerTag.detectLock]).1,
    h.2.2.2.2.2.2.1, (h.2.2.2.2.2.2.2.2 (Or.inr (Or.inl (by decide)))).2⟩

end FaceScanner

namespace FaceScanner

lemma step_errorMessage_origin (d : Config) (e : Event) :
    (step e d).errorMessage = d.errorMessage ∨ (step e d).errorMessage = none ∨
    e = Event.cameraDenied := by
  cases e with
  | startClick =>
      by_cases h1 : d.status = ScannerStatus.IDLE
      · right
        left
        simp [step, h1, handleStartC, rerenderFrom_errorMessage]
      · left
        simp [step, h1]
  | resetClick =>
      by_cases h1 : d.status = .SUCCESS ∨ d.status = .ERROR ∨ d.status = .WELCOME
      · right
        left
        simp [step, h1, handleResetC, rerenderFrom_errorMessage]
      · left
        simp only [step]
        rw [if_neg h1]
  | cameraGranted =>
      left
      unfold step
      split_ifs <;> simp
  | cameraDenied => right; right; rfl
  | metadataLoaded =>
      left
      unfold step
      split_ifs <;> simp [rerenderFrom_errorMessage]
  | fire t =>
      left
      exact fireTimer_errorMessage t d

/-- C9: camera denial while the request is outstanding in INITIALIZING
deterministically transitions to ERROR with the fixed non-empty message;
the stream is closed and never referenced afterwards (no timer is armed,
every timer firing is a no-op, and every event other than the user's
reset click leaves the configuration unchanged); and the camera denial
is the only event that ever installs an error record. -/
theorem c9_camera_failure (vw vh : ℚ) (c : Config) (h : Reachable vw vh c)
    (hs : c.status = .INITIALIZING) (hp : c.cameraPending = true) :
    (step .cameraDenied c).status = .ERROR ∧
    (step .cameraDenied c).errorMessage = some cameraDeniedMessage ∧
    cameraDeniedMessage ≠ "" ∧
    (step .cameraDenied c).streamOpen = false ∧
    (∀ t, (step .cameraDenied c).pending t = false) ∧
    (∀ t, fireTimer t (step .cameraDenied c) = step .cameraDenied c) ∧
    (∀ e, e ≠ Event.resetClick → step e (step .cameraDenied c) = step .cameraDenied c) ∧
    (∀ d e, (step e d).errorMessage = d.errorMessage ∨
      (step e d).errorMessage = none ∨ e = Event.cameraDenied) := by
  have inv := reachable_inv h
  obtain ⟨hst2, hopen, hmeta⟩ := inv.camPend hp
  have hpop := inv.popupClosed (by tauto)
  have hpend := pending_false_of_idle_like c inv (by tauto)
  have hres : step .cameraDenied c =
      stopCameraC { c with
        cameraPending := false
        errorMessage := some cameraDeniedMessage
        status := .ERROR } := by
    simp [step, hp, rerenderFrom, cleanupMain, effectMain, cleanupFsa, effectFsa,
      effectMain_showFsaPopup, cleanupMain_showFsaPopup, hs, hpop]
  have hpend2 : ∀ t, (step .cameraDenied c).pending t = false := by
    intro t
    rw [hres]
    simp [hpend]
  refine ⟨?_, ?_, by decide, ?_, hpend2, ?_, ?_, step_errorMessage_origin⟩
  · simp [hres]
  · simp [hres]
  · simp [hres]
  · intro t
    unfold fireTimer
    rw [if_neg (by simp [hpend2 t])]
  · intro e he
    rw [hres]
    cases e with
    | startClick =>
        simp only [step]
        rw [if_neg (by simp)]
    | resetClick => exact absurd rfl he
    | cameraGranted =>
        simp only [step]
        rw [if_neg (by simp)]
    | cameraDenied =>
        simp only [step]
        rw [if_neg (by simp)]
    | metadataLoaded =>
        simp only [step]
        rw [if_neg (by simp [hmeta])]
    | fire t =>
        show fireTimer t _ = _
        unfold fireTimer
        rw [if_neg (by simp [hpend t])]

/-- Witness for c9_camera_failure on the concrete run that is denied the
camera right after start. -/
theorem c9_camera_failure_witness :
    (step .cameraDenied (step .startClick (initConfig 640 480))).status = .ERROR ∧
    (step .cameraDenied (step .startClick (initConfig 640 480))).errorMessage =
      some cameraDeniedMessage := by
  have h := c9_camera_failure 640 480 (step .startClick (initConfig 640 480))
    (Reachable.next .startClick Reachable.init) (by decide) (by decide)
  exact ⟨h.1, h.2.1⟩

end FaceScanner

namespace FaceScanner

set_option maxRecDepth 100000 in
/-- C10 (counterexample): at the reachable configuration in which the
disclosure popup has just been shown, the typing interval is armed and
the displayed text is empty, and after one typing tick the displayed
text is still empty — the first tick writes the prefix of length 0
before incrementing the closure index, so the text does not grow by one
character on every typing tick. -/
theorem c10_counterexample :
    Reachable 640 480 demoPopupShown ∧
    demoPopupShown.showFsaPopup = true ∧
    demoPopupShown.pending .typingTick = true ∧
    demoPopupShown.displayedFsaText = "" ∧
    (fireTimer .typingTick demoPopupShown).displayedFsaText = "" := by
  refine ⟨reachable_demoPopupShown, ?_, ?_, ?_, ?_⟩ <;> decide

/-- C10 (amended): in every reachable configuration the displayed typed
text is an initial segment of the full disclosure string (so it never
contains characters outside it), and it is the empty string whenever the
popup is hidden; each typing tick sets the text to the initial segment
of length equal to the current closure index and then increments the
index, so the text grows by one character per tick from the second tick
of a typing run onwards, while the first tick rewrites the empty
segment. -/
theorem c10_typing_amended (vw vh : ℚ) :
    (∀ c : Config, Reachable vw vh c →
      (∃ n, c.displayedFsaText = fullFsaText.take n) ∧
      (c.showFsaPopup = false → c.displayedFsaText = "" ∧ c.isTyping = false)) ∧
    (∀ c : Config, c.pending .typingTick = true →
      (fireTimer .typingTick c).displayedFsaText = fullFsaText.take c.fsaIndex ∧
      (fireTimer .typingTick c).fsaIndex = c.fsaIndex + 1) := by
  constructor
  · intro c h
    have inv := reachable_inv h
    exact ⟨inv.displayedTake, inv.hiddenCleared⟩
  · intro c hp
    by_cases hlen : fullFsaText.length < c.fsaIndex + 1 <;>
      constructor <;>
        simp [fireTimer, hp, isInterval, runCallback, hlen]

/-- Witness for c10_typing_amended at the popup-shown configuration of
the demo run. -/
theorem c10_typing_amended_witness :
    (∃ n, demoPopupShown.displayedFsaText = fullFsaText.take n) ∧
    (fireTimer .typingTick demoPopupShown).fsaIndex = demoPopupShown.fsaIndex + 1 := by
  have h := c10_typing_amended 640 480
  exact ⟨(h.1 demoPopupShown reachable_demoPopupShown).1,
    (h.2 demoPopupShown (by decide)).2⟩

end FaceScanner
